import Mathlib

/-!
# Verification of the PPE-detection platform core

Shallow embedding of the stream-ingestion and violation-state engine of the
PPE-detection platform, translated from the Python sources:

* `src/services/violation_engine.py` (`PersonTracker`, `ViolationEngine`)
* `src/services/camera_manager.py` (`CameraStream` run loop)
* `src/core/config.py` (`Config`)

Conventions of the embedding:

* Python `float` values (timestamps, box coordinates, thresholds) are embedded
  as rationals `ℚ`; the `datetime.now()` clock is passed explicitly as a `now`
  argument, one value per frame-processing call.
* Python `dict`s are embedded as association lists `List (String × α)` with
  insert-replace-in-place semantics (`alInsert`), matching dict update order.
* The external collaborators (AI detector, cloud sync) are at the boundary:
  `cloud_sync.upload_violation` calls are recorded as emitted `Alert` values,
  and the frame `np.ndarray` is represented by its shape (`Frame`); the crop
  of the person region is recorded as the computed pixel rectangle.
-/

namespace PPE

/-! ## Association lists: the embedding of Python dicts -/

/-- Lookup in an association list (Python `d[k]` / `k in d`). -/
def alLookup {α : Type} (k : String) : List (String × α) → Option α
  | [] => none
  | (k', v) :: rest => if k' = k then some v else alLookup k rest

/-- Insert with replace-in-place semantics (Python `d[k] = v`): an existing
binding keeps its position, a new binding is appended at the end, matching
the insertion order of Python dicts. -/
def alInsert {α : Type} (k : String) (v : α) : List (String × α) → List (String × α)
  | [] => [(k, v)]
  | (k', v') :: rest => if k' = k then (k, v) :: rest else (k', v') :: alInsert k v rest

/-- Erase the first binding of a key (Python `del d[k]`). -/
def alErase {α : Type} (k : String) : List (String × α) → List (String × α)
  | [] => []
  | (k', v') :: rest => if k' = k then rest else (k', v') :: alErase k rest

theorem alLookup_eq_none_of_not_mem {α : Type} {k : String} {l : List (String × α)}
    (h : k ∉ l.map Prod.fst) : alLookup k l = none := by
  induction l with
  | nil => simp [alLookup]
  | cons hd tl ih =>
    obtain ⟨k0, v0⟩ := hd
    simp only [List.map_cons, List.mem_cons, not_or] at h
    simp only [alLookup, if_neg (fun hh : k0 = k => h.1 hh.symm)]
    exact ih h.2

theorem alLookup_alInsert_self {α : Type} (k : String) (v : α) (l : List (String × α)) :
    alLookup k (alInsert k v l) = some v := by
  induction l with
  | nil => simp [alInsert, alLookup]
  | cons hd tl ih =>
    obtain ⟨k0, v0⟩ := hd
    by_cases h : k0 = k
    · simp [alInsert, alLookup, h]
    · simp only [alInsert, if_neg h, alLookup, if_neg h]
      exact ih

theorem alLookup_alInsert_ne {α : Type} {k k' : String} (v : α) (l : List (String × α))
    (h : k' ≠ k) : alLookup k (alInsert k' v l) = alLookup k l := by
  induction l with
  | nil => simp [alInsert, alLookup, h]
  | cons hd tl ih =>
    obtain ⟨k0, v0⟩ := hd
    by_cases h2 : k0 = k'
    · subst h2
      simp [alInsert, alLookup, h]
    · simp only [alInsert, if_neg h2, alLookup]
      by_cases h3 : k0 = k
      · simp [h3]
      · simp only [if_neg h3]
        exact ih

theorem alLookup_alErase_ne {α : Type} {k k' : String} (l : List (String × α))
    (h : k' ≠ k) : alLookup k (alErase k' l) = alLookup k l := by
  induction l with
  | nil => simp [alErase, alLookup]
  | cons hd tl ih =>
    obtain ⟨k0, v0⟩ := hd
    by_cases h2 : k0 = k'
    · subst h2
      simp [alErase, alLookup, h]
    · simp only [alErase, if_neg h2, alLookup]
      by_cases h3 : k0 = k
      · simp [h3]
      · simp only [if_neg h3]
        exact ih

theorem alLookup_alErase_self {α : Type} {k : String} {l : List (String × α)}
    (hnd : (l.map Prod.fst).Nodup) : alLookup k (alErase k l) = none := by
  induction l with
  | nil => simp [alErase, alLookup]
  | cons hd tl ih =>
    obtain ⟨k0, v0⟩ := hd
    simp only [List.map_cons, List.nodup_cons] at hnd
    by_cases h2 : k0 = k
    · subst h2
      simp only [alErase, if_pos rfl]
      exact alLookup_eq_none_of_not_mem hnd.1
    · simp only [alErase, if_neg h2, alLookup, if_neg h2]
      exact ih hnd.2

theorem alErase_mem {α : Type} {x : String × α} {k : String} {l : List (String × α)}
    (h : x ∈ alErase k l) : x ∈ l := by
  induction l with
  | nil => simp [alErase] at h
  | cons hd tl ih =>
    by_cases h2 : hd.1 = k
    · simp only [alErase, if_pos h2] at h
      exact List.mem_cons_of_mem _ h
    · simp only [alErase, if_neg h2, List.mem_cons] at h
      rcases h with h | h
      · simp [h]
      · exact List.mem_cons_of_mem _ (ih h)

theorem alInsert_mem {α : Type} {x : String × α} {k : String} {v : α} {l : List (String × α)}
    (h : x ∈ alInsert k v l) : x = (k, v) ∨ x ∈ l := by
  induction l with
  | nil => simpa [alInsert] using h
  | cons hd tl ih =>
    by_cases h2 : hd.1 = k
    · simp only [alInsert, if_pos h2, List.mem_cons] at h
      rcases h with h | h
      · exact Or.inl h
      · exact Or.inr (List.mem_cons_of_mem _ h)
    · simp only [alInsert, if_neg h2, List.mem_cons] at h
      rcases h with h | h
      · exact Or.inr (by simp [h])
      · rcases ih h with h3 | h3
        · exact Or.inl h3
        · exact Or.inr (List.mem_cons_of_mem _ h3)

theorem alInsert_keys_nodup {α : Type} (k : String) (v : α) {l : List (String × α)}
    (hnd : (l.map Prod.fst).Nodup) : ((alInsert k v l).map Prod.fst).Nodup := by
  induction l with
  | nil => simp [alInsert]
  | cons hd tl ih =>
    obtain ⟨k0, v0⟩ := hd
    simp only [List.map_cons, List.nodup_cons] at hnd
    by_cases h2 : k0 = k
    · subst h2
      simpa [alInsert] using hnd
    · simp only [alInsert, if_neg h2, List.map_cons, List.nodup_cons]
      refine ⟨fun hmem => ?_, ih hnd.2⟩
      rcases List.mem_map.mp hmem with ⟨x, hx, hx1⟩
      rcases alInsert_mem hx with h3 | h3
      · exact h2 (by rw [h3] at hx1; exact hx1.symm)
      · exact hnd.1 (List.mem_map.mpr ⟨x, h3, hx1⟩)

theorem alErase_keys_nodup {α : Type} (k : String) {l : List (String × α)}
    (hnd : (l.map Prod.fst).Nodup) : ((alErase k l).map Prod.fst).Nodup := by
  induction l with
  | nil => simp [alErase]
  | cons hd tl ih =>
    obtain ⟨k0, v0⟩ := hd
    simp only [List.map_cons, List.nodup_cons] at hnd
    by_cases h2 : k0 = k
    · simpa [alErase, h2] using hnd.2
    · simp only [alErase, if_neg h2, List.map_cons, List.nodup_cons]
      refine ⟨fun hmem => ?_, ih hnd.2⟩
      rcases List.mem_map.mp hmem with ⟨x, hx, hx1⟩
      exact hnd.1 (List.mem_map.mpr ⟨x, alErase_mem hx, hx1⟩)

theorem alLookup_filter_pass {α : Type} {k : String} {v : α} {l : List (String × α)}
    {p : String × α → Bool} (hl : alLookup k l = some v) (hp : p (k, v) = true) :
    alLookup k (l.filter p) = some v := by
  induction l with
  | nil => simp [alLookup] at hl
  | cons hd tl ih =>
    obtain ⟨k0, v0⟩ := hd
    by_cases h2 : k0 = k
    · subst h2
      simp only [alLookup, if_pos rfl] at hl
      cases hl
      simp [List.filter_cons, hp, alLookup]
    · simp only [alLookup, if_neg h2] at hl
      rcases hb : p (k0, v0) with _ | _
      · simp only [List.filter_cons, hb, Bool.false_eq_true, if_neg]
        exact ih hl
      · simp only [List.filter_cons, hb, if_pos, alLookup, if_neg h2]
        exact ih hl

theorem alLookup_filter_fail {α : Type} {k : String} {v : α} {l : List (String × α)}
    {p : String × α → Bool} (hnd : (l.map Prod.fst).Nodup)
    (hl : alLookup k l = some v) (hp : p (k, v) = false) :
    alLookup k (l.filter p) = none := by
  induction l with
  | nil => simp [alLookup] at hl
  | cons hd tl ih =>
    obtain ⟨k0, v0⟩ := hd
    simp only [List.map_cons, List.nodup_cons] at hnd
    by_cases h2 : k0 = k
    · subst h2
      simp only [alLookup, if_pos rfl] at hl
      cases hl
      simp only [List.filter_cons, hp, Bool.false_eq_true, if_neg]
      refine alLookup_eq_none_of_not_mem fun hm => hnd.1 ?_
      rcases List.mem_map.mp hm with ⟨y, hy, hy1⟩
      exact List.mem_map.mpr ⟨y, List.mem_of_mem_filter hy, hy1⟩
    · simp only [alLookup, if_neg h2] at hl
      rcases hb : p (k0, v0) with _ | _
      · simp only [List.filter_cons, hb, Bool.false_eq_true, if_neg]
        exact ih hnd.2 hl
      · simp only [List.filter_cons, hb, if_pos, alLookup, if_neg h2]
        exact ih hnd.2 hl

theorem alLookup_isSome_alInsert {α : Type} {k : String} (k' : String) (v : α)
    (l : List (String × α)) (h : (alLookup k l).isSome = true) :
    (alLookup k (alInsert k' v l)).isSome = true := by
  by_cases h2 : k' = k
  · subst h2; simp [alLookup_alInsert_self]
  · rwa [alLookup_alInsert_ne v l h2]

/-! ## Configuration (`src/core/config.py`)

Only the fields consumed by the embedded core are modelled.  Numeric
`float` fields are rationals; `fps` and the integer fields are naturals as
configured (the defaults are `fps = 10`, `max_reconnect_attempts = 10`,
debounce 2.0s, cooldown 5.0s, IoU threshold 0.3). -/

structure Config where
  frame_width : ℕ := 640
  frame_height : ℕ := 480
  fps : ℕ := 10
  violation_debounce_seconds : ℚ := 2
  violation_cooldown_seconds : ℚ := 5
  require_goggles : Bool := true
  require_lab_coat : Bool := true
  require_gloves : Bool := false
  iou_threshold : ℚ := 3/10
  camera_reconnect_delay : ℚ := 5
  max_reconnect_attempts : ℕ := 10
deriving DecidableEq

/-! ## Data model of the violation engine (`src/services/violation_engine.py`) -/

/-- One detection record from the AI detector: `{class, bbox, confidence}`.
A missing `bbox` key (Python `det.get("bbox", [])`) is represented by the
empty list. -/
structure Detection where
  cls : String
  bbox : List ℚ
  confidence : ℚ := 1
deriving DecidableEq

/-- The video frame `np.ndarray`, represented by its shape:
`height = frame.shape[0]`, `width = frame.shape[1]`. -/
structure Frame where
  height : ℕ
  width : ℕ
deriving DecidableEq

/-- Python `int(q)` on a float: truncation toward zero. -/
def pyInt (q : ℚ) : ℤ := q.num.tdiv q.den

/-- `PersonTracker`: person identity, last bounding box, the PPE map
(`class -> [detections]`) and the last-seen timestamp. -/
structure PersonTracker where
  person_id : String
  bbox : List ℚ
  ppe : List (String × List Detection)
  last_seen : ℚ
deriving DecidableEq

/-- `PersonTracker.__init__(person_id, bbox)`, with the construction time as
the `datetime.now()` value. -/
def mkPersonTracker (person_id : String) (bbox : List ℚ) (now : ℚ) : PersonTracker :=
  { person_id := person_id, bbox := bbox, ppe := [], last_seen := now }

/-- `defaultdict(list)` append: `self.ppe[ppe_class].append(det)`. -/
def alAppendOne (k : String) (det : Detection) (m : List (String × List Detection)) :
    List (String × List Detection) :=
  match alLookup k m with
  | some vs => alInsert k (vs ++ [det]) m
  | none => alInsert k [det] m

/-- `PersonTracker.update_ppe`: clear the PPE map, regroup this frame's
matched detections by lower-cased class, refresh `last_seen`. -/
def PersonTracker.update_ppe (tr : PersonTracker) (detections : List Detection) (now : ℚ) :
    PersonTracker :=
  { tr with
    ppe := detections.foldl (fun m det => alAppendOne det.cls.toLower det m) [],
    last_seen := now }

/-- `PersonTracker.has_ppe`: the lower-cased class is present with a
non-empty detection list. -/
def PersonTracker.has_ppe (tr : PersonTracker) (required_class : String) : Bool :=
  match alLookup required_class.toLower tr.ppe with
  | some l => decide (0 < l.length)
  | none => false

/-- The record stored in `active_violations` (snapshot of a confirmed
violation); the cropped `person_frame` is represented by its pixel
rectangle. -/
structure VioData where
  camera_id : String
  person_id : String
  missing_ppe : String
  timestamp : ℚ
  crop : ℤ × ℤ × ℤ × ℤ
  bbox : List ℚ
deriving DecidableEq

/-- One `cloud_sync.upload_violation(...)` call, i.e. one emitted alert.
`timestamp` is the engine clock at emission. -/
structure Alert where
  session_id : String
  camera_id : String
  person_id : String
  missing_ppe : String
  crop : ℤ × ℤ × ℤ × ℤ
  bbox : List ℚ
  timestamp : ℚ
deriving DecidableEq

/-- The three debounce/cooldown dictionaries of `ViolationEngine`. -/
structure VioMaps where
  start_times : List (String × ℚ)
  active : List (String × VioData)
  cooldowns : List (String × ℚ)
deriving DecidableEq

/-- The mutable state of `ViolationEngine`. -/
structure EngineState where
  people : List (String × PersonTracker)
  violation_start_times : List (String × ℚ)
  active_violations : List (String × VioData)
  violation_cooldowns : List (String × ℚ)
  active_session_id : Option String
  required_ppe : List (String × Bool)
deriving DecidableEq

/-! ## Violation engine operations -/

/-- `ViolationEngine._calculate_iou`: Intersection over Union of two
`[x1, y1, x2, y2]` boxes. (Python unpacks exactly four coordinates; other
arities would raise and are mapped to `0`, never reached by well-formed
detections.) -/
def calculate_iou : List ℚ → List ℚ → ℚ
  | [x1a, y1a, x2a, y2a], [x1b, y1b, x2b, y2b] =>
    let x1i := max x1a x1b
    let y1i := max y1a y1b
    let x2i := min x2a x2b
    let y2i := min y2a y2b
    if x2i ≤ x1i ∨ y2i ≤ y1i then 0
    else
      let intersection := (x2i - x1i) * (y2i - y1i)
      let area1 := (x2a - x1a) * (y2a - y1a)
      let area2 := (x2b - x1b) * (y2b - y1b)
      let union := area1 + area2 - intersection
      if union = 0 then 0 else intersection / union
  | _, _ => 0

/-- `ViolationEngine._match_ppe_to_person`: keep every PPE detection whose
IoU with the person box reaches the configured threshold; a missing bbox is
skipped. -/
def match_ppe_to_person (cfg : Config) (person_bbox : List ℚ)
    (ppe_detections : List Detection) : List Detection :=
  ppe_detections.foldl
    (fun matched ppe_det =>
      if ppe_det.bbox.isEmpty then matched
      else if cfg.iou_threshold ≤ calculate_iou person_bbox ppe_det.bbox then
        matched ++ [ppe_det]
      else matched)
    []

/-- `ViolationEngine._generate_person_id`: camera id plus truncated bbox
center. -/
def generate_person_id (bbox : List ℚ) (camera_id : String) : String :=
  match bbox with
  | [x1, y1, x2, y2] =>
    let center_x := (x1 + x2) / 2
    let center_y := (y1 + y2) / 2
    camera_id ++ "_" ++ toString (pyInt center_x) ++ "_" ++ toString (pyInt center_y)
  | _ => camera_id

/-- The violation key `f"{camera_id}_{person_id}_{ppe_class}"`. -/
def violation_key (camera_id person_id ppe_class : String) : String :=
  camera_id ++ "_" ++ person_id ++ "_" ++ ppe_class

/-- The person-region crop of `_trigger_violation_alert`: the bbox
coordinates truncated to `int`, padded by 20 pixels and clamped to the
frame bounds. -/
def cropRegion (frame : Frame) (bbox : List ℚ) : ℤ × ℤ × ℤ × ℤ :=
  match bbox with
  | [bx1, by1, bx2, by2] =>
    (max 0 (pyInt bx1 - 20), max 0 (pyInt by1 - 20),
     min (frame.width : ℤ) (pyInt bx2 + 20), min (frame.height : ℤ) (pyInt by2 + 20))
  | _ => (0, 0, 0, 0)

/-- `ViolationEngine._trigger_violation_alert`: record the active violation,
set the cooldown to `now + violation_cooldown_seconds`, and emit the upload
call. -/
def trigger_violation_alert (cfg : Config) (camera_id person_id sid : String)
    (tracker : PersonTracker) (missing_ppe : String) (frame : Frame) (now : ℚ)
    (acc : VioMaps × List Alert) : VioMaps × List Alert :=
  let key := violation_key camera_id person_id missing_ppe
  let crop := cropRegion frame tracker.bbox
  let vd : VioData :=
    { camera_id := camera_id, person_id := person_id, missing_ppe := missing_ppe,
      timestamp := now, crop := crop, bbox := tracker.bbox }
  let alert : Alert :=
    { session_id := sid, camera_id := camera_id, person_id := person_id,
      missing_ppe := missing_ppe, crop := crop, bbox := tracker.bbox,
      timestamp := now }
  ({ acc.1 with
     active := alInsert key vd acc.1.active,
     cooldowns := alInsert key (now + cfg.violation_cooldown_seconds) acc.1.cooldowns },
   acc.2 ++ [alert])

/-- The body of the `_check_violations` loop after the cooldown gate:
compliance clears any pending/active entry; non-compliance starts or
continues the debounce and triggers the alert once confirmed and not yet
active. -/
def checkAfterCooldown (cfg : Config) (camera_id person_id sid : String)
    (tracker : PersonTracker) (frame : Frame) (now : ℚ)
    (acc : VioMaps × List Alert) (ppe_class : String) : VioMaps × List Alert :=
  let key := violation_key camera_id person_id ppe_class
  if tracker.has_ppe ppe_class then
    ({ acc.1 with
       start_times := alErase key acc.1.start_times,
       active := alErase key acc.1.active }, acc.2)
  else
    let st1 :=
      match alLookup key acc.1.start_times with
      | some _ => acc.1.start_times
      | none => alInsert key now acc.1.start_times
    let start_time := (alLookup key st1).getD now
    if cfg.violation_debounce_seconds ≤ now - start_time then
      match alLookup key acc.1.active with
      | some _ => ({ acc.1 with start_times := st1 }, acc.2)
      | none =>
        trigger_violation_alert cfg camera_id person_id sid tracker ppe_class frame now
          ({ acc.1 with start_times := st1 }, acc.2)
    else ({ acc.1 with start_times := st1 }, acc.2)

/-- One iteration of the `for ppe_class, required in self.required_ppe.items()`
loop of `_check_violations`: skip non-required kinds, apply the cooldown
gate, then the compliance/debounce logic. -/
def check_one_ppe (cfg : Config) (camera_id person_id sid : String)
    (tracker : PersonTracker) (frame : Frame) (now : ℚ)
    (acc : VioMaps × List Alert) (entry : String × Bool) : VioMaps × List Alert :=
  if entry.2 = false then acc
  else
    let key := violation_key camera_id person_id entry.1
    match alLookup key acc.1.cooldowns with
    | some until_t =>
      if now < until_t then acc
      else
        checkAfterCooldown cfg camera_id person_id sid tracker frame now
          ({ acc.1 with cooldowns := alErase key acc.1.cooldowns }, acc.2) entry.1
    | none => checkAfterCooldown cfg camera_id person_id sid tracker frame now acc entry.1

/-- `ViolationEngine._check_violations` for one person: fold the per-kind
check over the required-PPE mapping. -/
def check_violations (cfg : Config) (camera_id person_id sid : String)
    (tracker : PersonTracker) (frame : Frame) (now : ℚ)
    (required_ppe : List (String × Bool)) (acc : VioMaps × List Alert) :
    VioMaps × List Alert :=
  required_ppe.foldl (check_one_ppe cfg camera_id person_id sid tracker frame now) acc

/-- The classes recognized as PPE in `process_detections`. -/
def ppeClasses : List String := ["goggles", "lab_coat", "gloves", "helmet"]

/-- The body of the person-detection loop of `process_detections`: skip a
missing bbox, derive the identity, match PPE by IoU, and create/update the
tracker in both `self.people` and `current_people`. -/
def updateOnePerson (cfg : Config) (camera_id : String) (ppe_detections : List Detection)
    (now : ℚ) (acc : List (String × PersonTracker) × List (String × PersonTracker))
    (person_det : Detection) :
    List (String × PersonTracker) × List (String × PersonTracker) :=
  let person_bbox := person_det.bbox
  if person_bbox.isEmpty then acc
  else
    let person_id := generate_person_id person_bbox camera_id
    let matched_ppe := match_ppe_to_person cfg person_bbox ppe_detections
    let tracker :=
      match alLookup person_id acc.1 with
      | some tr => PersonTracker.update_ppe { tr with bbox := person_bbox } matched_ppe now
      | none => PersonTracker.update_ppe (mkPersonTracker person_id person_bbox now)
          matched_ppe now
    (alInsert person_id tracker acc.1, alInsert person_id tracker acc.2)

/-- `ViolationEngine.process_detections`: gate on the active session,
partition detections, update trackers, expire silent trackers, and run the
violation check for every person seen this frame.  Returns the new engine
state and the alerts emitted during the call. -/
def process_detections (cfg : Config) (s : EngineState) (camera_id : String)
    (frame : Frame) (detections : List Detection) (now : ℚ) :
    EngineState × List Alert :=
  match s.active_session_id with
  | none => (s, [])
  | some sid =>
    let people_detections := detections.filter (fun d => d.cls.toLower == "person")
    let ppe_detections := detections.filter (fun d => ppeClasses.contains d.cls.toLower)
    let pc := people_detections.foldl (updateOnePerson cfg camera_id ppe_detections now)
      (s.people, [])
    let current_people := pc.2
    let people2 := pc.1.filter
      (fun pt => (alLookup pt.1 current_people).isSome || !(decide (5 < now - pt.2.last_seen)))
    let res := current_people.foldl
      (fun acc pt => check_violations cfg camera_id pt.1 sid pt.2 frame now s.required_ppe acc)
      (⟨s.violation_start_times, s.active_violations, s.violation_cooldowns⟩, [])
    ({ s with
       people := people2,
       violation_start_times := res.1.start_times,
       active_violations := res.1.active,
       violation_cooldowns := res.1.cooldowns }, res.2)

/-- Iterated frame processing: the same camera delivers the same detection
list at each of the given times (used for the temporal claims). -/
def run_frames (cfg : Config) (camera_id : String) (frame : Frame)
    (detections : List Detection) : EngineState → List ℚ → EngineState × List Alert
  | s, [] => (s, [])
  | s, t :: ts =>
    let r1 := process_detections cfg s camera_id frame detections t
    let r2 := run_frames cfg camera_id frame detections r1.1 ts
    (r2.1, r1.2 ++ r2.2)

/-! ## Camera stream (`src/services/camera_manager.py`)

The `CameraStream.run` loop is embedded as a step function over an explicit
stream state, driven by an environment oracle supplying the outcome of the
connection attempt (`_connect`, including its test read) and of `cap.read()`
for the iteration.  `await asyncio.sleep` calls are no-ops of the model. -/

/-- The source classification of `CameraStream._parse_source`. -/
inductive SType where
  | rtsp
  | image
  | usb
  | file
deriving DecidableEq

/-- The nondeterministic outcomes consumed by one loop iteration. -/
structure CamEnv where
  connectOk : Bool
  readOk : Bool
deriving DecidableEq

/-- The mutable state of one `CameraStream` worker.  `halted` records that
the `run` loop has exited: either by `break` after exhausting the reconnect
attempts, or by the uncaught `ZeroDivisionError` of the subsampling
expression. -/
structure CamState where
  connected : Bool
  frame_count : ℕ
  reconnect_attempts : ℕ
  halted : Bool
deriving DecidableEq

/-- Observable actions of one loop iteration. -/
inductive CamAction where
  | attemptConnect (success : Bool)
  | processFrame
  | rewind
deriving DecidableEq

/-- The subsampling gate `self.frame_count % (30 // self.global_config.fps) == 0`
of the run loop.  Python `//` and `%` raise `ZeroDivisionError` when
`30 // fps` is `0` (and `30 // 0` itself raises); the error case is `none`. -/
def subsampleCheck (fps frame_count : ℕ) : Option Bool :=
  if 30 / fps = 0 then none
  else some (frame_count % (30 / fps) == 0)

/-- One iteration of the `while self.running` loop of `CameraStream.run`.
For an image source the file is re-read and processed every iteration; for
the other sources the loop connects (bounded by `max_reconnect_attempts`,
resetting the counter inside a successful `_connect`), rewinds a file source
at end-of-stream, disconnects on other read failures, and forwards the frame
through `_process_frame` (which increments `frame_count`) only when the
subsampling gate fires. -/
def camStep (cfg : Config) (st : SType) (s : CamState) (env : CamEnv) :
    CamState × List CamAction :=
  if s.halted then (s, [])
  else if st = SType.image then
    if env.readOk then ({ s with frame_count := s.frame_count + 1 }, [CamAction.processFrame])
    else (s, [])
  else if s.connected = false then
    if cfg.max_reconnect_attempts ≤ s.reconnect_attempts then
      ({ s with halted := true }, [])
    else if env.connectOk then
      ({ s with connected := true, reconnect_attempts := 0 },
       [CamAction.attemptConnect true])
    else
      ({ s with reconnect_attempts := s.reconnect_attempts + 1 },
       [CamAction.attemptConnect false])
  else
    if env.readOk then
      match subsampleCheck cfg.fps s.frame_count with
      | none => ({ s with halted := true }, [])
      | some true =>
        ({ s with frame_count := s.frame_count + 1 }, [CamAction.processFrame])
      | some false => (s, [])
    else if st = SType.file then (s, [CamAction.rewind])
    else
      ({ s with connected := false, reconnect_attempts := s.reconnect_attempts + 1 }, [])

/-- Run the camera loop over a list of per-iteration environments. -/
def camRun (cfg : Config) (st : SType) : CamState → List CamEnv → CamState × List CamAction
  | s, [] => (s, [])
  | s, env :: envs =>
    let r1 := camStep cfg st s env
    let r2 := camRun cfg st r1.1 envs
    (r2.1, r1.2 ++ r2.2)

/-! ## Concrete fixtures used by witnesses and trace theorems -/

/-- The default configuration values of `Config` (debounce 2s, cooldown 5s,
IoU threshold 0.3, fps 10, 10 reconnect attempts). -/
def cfgDefault : Config := {}

/-- An engine state with no session and empty maps. -/
def sNoSession : EngineState :=
  { people := [], violation_start_times := [], active_violations := [],
    violation_cooldowns := [], active_session_id := none, required_ppe := [] }

/-- An engine state with an active session requiring only goggles. -/
def sGoggles : EngineState :=
  { people := [], violation_start_times := [], active_violations := [],
    violation_cooldowns := [], active_session_id := some "sess",
    required_ppe := [("goggles", true), ("lab_coat", false), ("gloves", false),
                     ("helmet", false)] }

/-- A person detection with a fixed box (center (150, 200)). -/
def personDet : Detection := { cls := "person", bbox := [100, 100, 200, 300] }

/-! ## Claim theorems -/

/-- Claim C4: with no active session (`active_session_id` unset),
`process_detections` emits zero alerts and leaves the whole engine state —
person trackers, violation start times, active violations, cooldowns and the
required-PPE set — unchanged, for every camera id, frame and detection
list. -/
theorem c4_no_session_noop (cfg : Config) (s : EngineState) (camera_id : String)
    (frame : Frame) (detections : List Detection) (now : ℚ)
    (h : s.active_session_id = none) :
    process_detections cfg s camera_id frame detections now = (s, []) := by
  simp [process_detections, h]

/-- Witness for C4 at a concrete state and detection list. -/
theorem c4_witness :
    process_detections cfgDefault sNoSession "cam1" ⟨480, 640⟩ [personDet] 0 =
      (sNoSession, []) :=
  c4_no_session_noop cfgDefault sNoSession "cam1" ⟨480, 640⟩ [personDet] 0 rfl

/-- Claim C10: the subsampling expression `frame_count % (30 // fps)` of the
`CameraStream.run` loop is total exactly when `1 ≤ fps ≤ 30`; for any
`fps > 30` the divisor `30 // fps` is `0` and the expression raises
`ZeroDivisionError` (`none` in the model), which is uncaught in the run loop
and terminates that camera worker (`camStep` halts on the `none` case). -/
theorem c10_subsample_totality (fps frame_count : ℕ) :
    ((subsampleCheck fps frame_count).isSome ↔ (1 ≤ fps ∧ fps ≤ 30)) ∧
    (30 < fps → 30 / fps = 0 ∧ subsampleCheck fps frame_count = none) := by
  have hzero : 30 / fps = 0 ↔ (fps = 0 ∨ 30 < fps) := by
    constructor
    · intro h
      by_cases h0 : fps = 0
      · exact Or.inl h0
      · refine Or.inr ?_
        exact (Nat.div_eq_zero_iff (Nat.pos_of_ne_zero h0)).mp h
    · rintro (rfl | h)
      · simp
      · exact Nat.div_eq_of_lt h
  constructor
  · constructor
    · intro h
      simp only [subsampleCheck] at h
      by_cases hz : 30 / fps = 0
      · simp [hz] at h
      · have := (not_iff_not.mpr hzero).mp hz
        push_neg at this
        omega
    · intro h
      simp only [subsampleCheck]
      have hz : ¬(30 / fps = 0) := by
        rw [hzero]
        push_neg
        omega
      simp [hz]
  · intro h
    have hz : 30 / fps = 0 := hzero.mpr (Or.inr h)
    exact ⟨hz, by simp [subsampleCheck, hz]⟩

/-- Witness for C10: fps 40 raises, fps 10 is total. -/
theorem c10_witness :
    subsampleCheck 40 0 = none ∧ (subsampleCheck 10 0).isSome := by
  constructor
  · exact ((c10_subsample_totality 40 0).2 (by norm_num)).2
  · exact (c10_subsample_totality 10 0).1.mpr ⟨by norm_num, by norm_num⟩

/-- A camera state connected with fresh counters. -/
def camConnected : CamState :=
  { connected := true, frame_count := 0, reconnect_attempts := 0, halted := false }

/-- Claim C2 (code evaluated at the failing input): with the default
`fps = 10` (`30 // fps = 3`) a connected non-image stream that successfully
reads 12 consecutive frames forwards ONLY the first read frame to
processing, not frames 0, 3, 6, 9 as the spec states: `frame_count` is
incremented inside `_process_frame` only, so it sticks at 1 after the first
forwarded frame and `1 % 3 == 0` is never true again. -/
theorem c2_code_trace :
    (camRun cfgDefault SType.rtsp camConnected (List.replicate 12 ⟨true, true⟩)).2 =
      [CamAction.processFrame] ∧
    (camRun cfgDefault SType.rtsp camConnected (List.replicate 12 ⟨true, true⟩)).1.frame_count
      = 1 := by
  constructor <;> rfl

/-- Claim C1 (code evaluated at the spec's own example): debounce 2s,
cooldown 5s, goggles required; the same person is detected without goggles
at t = 0, 2.1, 3.0 and 7.2.  The code emits exactly one alert, at t = 2.1,
and does NOT alert again at t = 7.2: the `active_violations` entry set when
the alert fired is never cleared while the person stays non-compliant, so
after the cooldown expires the `violation_key not in self.active_violations`
test still blocks re-alerting. -/
theorem c1_code_trace :
    (run_frames cfgDefault "cam1" ⟨480, 640⟩ [personDet] sGoggles
        [0, 21/10, 3, 36/5]).2.map Alert.timestamp = [21/10] ∧
    (alLookup "cam1_cam1_150_200_goggles"
        (run_frames cfgDefault "cam1" ⟨480, 640⟩ [personDet] sGoggles
          [0, 21/10, 3, 36/5]).1.active_violations).isSome = true := by
  constructor <;> with_unfolding_all rfl

/-! ### C9: the reconnect-attempt ceiling -/

theorem camRun_halted (cfg : Config) (st : SType) (s : CamState) (envs : List CamEnv)
    (h : s.halted = true) : camRun cfg st s envs = (s, []) := by
  induction envs with
  | nil => rfl
  | cons env envs ih =>
    simp only [camRun, camStep, h, if_pos]
    simpa using ih

theorem camRun_append (cfg : Config) (st : SType) (s : CamState)
    (l1 l2 : List CamEnv) :
    camRun cfg st s (l1 ++ l2) =
      ((camRun cfg st (camRun cfg st s l1).1 l2).1,
       (camRun cfg st s l1).2 ++ (camRun cfg st (camRun cfg st s l1).1 l2).2) := by
  induction l1 generalizing s with
  | nil => simp [camRun]
  | cons env l1 ih =>
    simp only [List.cons_append, camRun, List.append_eq]
    rw [ih]
    simp [List.append_assoc]

theorem camStep_connect_fail (cfg : Config) (st : SType) (s : CamState) (env : CamEnv)
    (hst : st ≠ SType.image) (hh : s.halted = false) (hc : s.connected = false)
    (hlt : s.reconnect_attempts < cfg.max_reconnect_attempts)
    (hko : env.connectOk = false) :
    camStep cfg st s env =
      ({ s with reconnect_attempts := s.reconnect_attempts + 1 },
       [CamAction.attemptConnect false]) := by
  simp [camStep, hh, hc, hst, hko, not_le.mpr hlt]

theorem camStep_ceiling (cfg : Config) (st : SType) (s : CamState) (env : CamEnv)
    (hst : st ≠ SType.image) (hh : s.halted = false) (hc : s.connected = false)
    (hm : cfg.max_reconnect_attempts ≤ s.reconnect_attempts) :
    camStep cfg st s env = ({ s with halted := true }, []) := by
  simp [camStep, hh, hc, hst, hm]

/-- Climbing the failure counter: from a disconnected, unhalted state,
`k` consecutive failed connection attempts (with the ceiling not yet hit)
each perform one `attemptConnect false` and increment the counter. -/
theorem camRun_fail_climb (cfg : Config) (st : SType) (hst : st ≠ SType.image)
    (k : ℕ) (s : CamState) (hh : s.halted = false) (hc : s.connected = false)
    (hk : s.reconnect_attempts + k ≤ cfg.max_reconnect_attempts) :
    camRun cfg st s (List.replicate k ⟨false, false⟩) =
      ({ s with reconnect_attempts := s.reconnect_attempts + k },
       List.replicate k (CamAction.attemptConnect false)) := by
  induction k generalizing s with
  | zero => simp [camRun]
  | succ k ih =>
    have hlt : s.reconnect_attempts < cfg.max_reconnect_attempts := by omega
    simp only [List.replicate_succ, camRun]
    rw [camStep_connect_fail cfg st s ⟨false, false⟩ hst hh hc hlt rfl]
    rw [ih { s with reconnect_attempts := s.reconnect_attempts + 1 } hh hc
      (by show s.reconnect_attempts + 1 + k ≤ cfg.max_reconnect_attempts; omega)]
    simp only [List.replicate_succ]
    have harith : s.reconnect_attempts + 1 + k = s.reconnect_attempts + (k + 1) := by omega
    rw [harith]
    rfl

/-- Once the ceiling is reached while disconnected, the loop halts at the
next iteration and no action (in particular no connection attempt) is ever
emitted again. -/
theorem camRun_at_ceiling (cfg : Config) (st : SType) (hst : st ≠ SType.image)
    (s : CamState) (envs : List CamEnv) (hh : s.halted = false)
    (hc : s.connected = false)
    (hm : cfg.max_reconnect_attempts ≤ s.reconnect_attempts) :
    (camRun cfg st s envs).2 = [] ∧
    (∀ env rest, envs = env :: rest → (camRun cfg st s envs).1.halted = true) := by
  cases envs with
  | nil => simp [camRun]
  | cons env rest =>
    have hstep := camStep_ceiling cfg st s env hst hh hc hm
    simp only [camRun, hstep, camRun_halted cfg st { s with halted := true } rest rfl]
    simp

/-- The initial state of a `CameraStream` worker: disconnected, zero frame
count, zero reconnect attempts. -/
def camInit : CamState :=
  { connected := false, frame_count := 0, reconnect_attempts := 0, halted := false }

/-- Claim C9: a `CameraStream` on a non-image source whose connection
attempts fail `max_reconnect_attempts` consecutive times terminates its run
loop permanently and never attempts another connection (the whole action
trace is exactly the failed attempts, independent of any later environment,
and the loop state is halted); and any successful `_connect` resets the
reconnect-attempt counter to zero. -/
theorem c9_reconnect_ceiling (cfg : Config) (st : SType) (hst : st ≠ SType.image) :
    (∀ rest : List CamEnv,
      camRun cfg st camInit
          (List.replicate cfg.max_reconnect_attempts ⟨false, false⟩ ++ rest) =
        ((camRun cfg st camInit
            (List.replicate cfg.max_reconnect_attempts ⟨false, false⟩ ++ rest)).1,
         List.replicate cfg.max_reconnect_attempts (CamAction.attemptConnect false)) ∧
      (∀ env rest2, rest = env :: rest2 →
        (camRun cfg st camInit
            (List.replicate cfg.max_reconnect_attempts ⟨false, false⟩ ++ rest)).1.halted
          = true)) ∧
    (∀ (s : CamState) (env : CamEnv), s.halted = false → s.connected = false →
      s.reconnect_attempts < cfg.max_reconnect_attempts → env.connectOk = true →
      (camStep cfg st s env).1.reconnect_attempts = 0) := by
  constructor
  · intro rest
    have hclimb : camRun cfg st camInit
        (List.replicate cfg.max_reconnect_attempts ⟨false, false⟩) =
        (⟨false, 0, cfg.max_reconnect_attempts, false⟩,
         List.replicate cfg.max_reconnect_attempts (CamAction.attemptConnect false)) := by
      rw [camRun_fail_climb cfg st hst cfg.max_reconnect_attempts camInit rfl rfl
        (by simp [camInit])]
      simp [camInit]
    have hceil := camRun_at_ceiling cfg st hst
      ⟨false, 0, cfg.max_reconnect_attempts, false⟩ rest rfl rfl (le_refl _)
    have happ := camRun_append cfg st camInit
      (List.replicate cfg.max_reconnect_attempts ⟨false, false⟩) rest
    constructor
    · rw [happ, hclimb]
      simp only [hceil.1]
      simp
    · intro env rest2 hrest
      rw [happ, hclimb]
      exact hceil.2 env rest2 hrest
  · intro s env hh hc hlt hok
    simp [camStep, hh, hc, if_neg hst, not_le.mpr hlt, hok]

/-- Witness for C9: ceiling 2, two failed attempts, then any further
environment: exactly two failed-attempt actions, halted loop; and a
successful connect resets the counter. -/
theorem c9_witness :
    (camRun { max_reconnect_attempts := 2 : Config } SType.rtsp camInit
        (List.replicate 2 ⟨false, false⟩ ++ [⟨true, true⟩])).2 =
      List.replicate 2 (CamAction.attemptConnect false) ∧
    (camRun { max_reconnect_attempts := 2 : Config } SType.rtsp camInit
        (List.replicate 2 ⟨false, false⟩ ++ [⟨true, true⟩])).1.halted = true ∧
    (camStep { max_reconnect_attempts := 2 : Config } SType.rtsp
        { connected := false, frame_count := 0, reconnect_attempts := 1, halted := false }
        ⟨true, true⟩).1.reconnect_attempts = 0 := by
  have h := c9_reconnect_ceiling { max_reconnect_attempts := 2 : Config } SType.rtsp
    (by intro hh; exact absurd hh (by decide))
  refine ⟨?_, ?_, ?_⟩
  · have := (h.1 [⟨true, true⟩]).1
    rw [this]
  · exact (h.1 [⟨true, true⟩]).2 ⟨true, true⟩ [] rfl
  · exact h.2 _ ⟨true, true⟩ rfl rfl (by norm_num) rfl

/-! ### C6: tracker expiry -/

/-- Unfolding of `process_detections` under an active session. -/
theorem process_detections_some (cfg : Config) (s : EngineState) (camera_id : String)
    (frame : Frame) (detections : List Detection) (now : ℚ) (sid : String)
    (hsid : s.active_session_id = some sid) :
    process_detections cfg s camera_id frame detections now =
      (let people_detections := detections.filter (fun d => d.cls.toLower == "person")
       let ppe_detections := detections.filter (fun d => ppeClasses.contains d.cls.toLower)
       let pc := people_detections.foldl (updateOnePerson cfg camera_id ppe_detections now)
         (s.people, [])
       let people2 := pc.1.filter
         (fun pt => (alLookup pt.1 pc.2).isSome || !(decide (5 < now - pt.2.last_seen)))
       let res := pc.2.foldl
         (fun acc pt =>
           check_violations cfg camera_id pt.1 sid pt.2 frame now s.required_ppe acc)
         (⟨s.violation_start_times, s.active_violations, s.violation_cooldowns⟩, [])
       ({ s with
          people := people2,
          violation_start_times := res.1.start_times,
          active_violations := res.1.active,
          violation_cooldowns := res.1.cooldowns }, res.2)) := by
  simp only [process_detections, hsid]

/-- The tracker value that `updateOnePerson` stores for a valid person
detection (update of the existing tracker, or a fresh one). -/
def trackerFor (cfg : Config) (camera_id : String) (ppe_detections : List Detection)
    (now : ℚ) (people : List (String × PersonTracker)) (person_det : Detection) :
    PersonTracker :=
  match alLookup (generate_person_id person_det.bbox camera_id) people with
  | some tr => PersonTracker.update_ppe { tr with bbox := person_det.bbox }
      (match_ppe_to_person cfg person_det.bbox ppe_detections) now
  | none => PersonTracker.update_ppe
      (mkPersonTracker (generate_person_id person_det.bbox camera_id) person_det.bbox now)
      (match_ppe_to_person cfg person_det.bbox ppe_detections) now

theorem updateOnePerson_valid (cfg : Config) (camera_id : String)
    (ppe_detections : List Detection) (now : ℚ)
    (acc : List (String × PersonTracker) × List (String × PersonTracker))
    (d : Detection) (hb : d.bbox.isEmpty = false) :
    updateOnePerson cfg camera_id ppe_detections now acc d =
      (alInsert (generate_person_id d.bbox camera_id)
        (trackerFor cfg camera_id ppe_detections now acc.1 d) acc.1,
       alInsert (generate_person_id d.bbox camera_id)
        (trackerFor cfg camera_id ppe_detections now acc.1 d) acc.2) := by
  simp only [updateOnePerson, trackerFor, hb, Bool.false_eq_true, if_false]

theorem updateOnePerson_empty (cfg : Config) (camera_id : String)
    (ppe_detections : List Detection) (now : ℚ)
    (acc : List (String × PersonTracker) × List (String × PersonTracker))
    (d : Detection) (hb : d.bbox.isEmpty = true) :
    updateOnePerson cfg camera_id ppe_detections now acc d = acc := by
  simp only [updateOnePerson, hb, if_true]

/-- The people-update fold does not touch a person id that no valid person
detection of the frame generates. -/
theorem updateFold_preserves (cfg : Config) (camera_id : String)
    (ppe_detections : List Detection) (now : ℚ) (pid : String)
    (l : List Detection)
    (hl : ∀ d ∈ l, d.bbox.isEmpty = false → generate_person_id d.bbox camera_id ≠ pid) :
    ∀ acc : List (String × PersonTracker) × List (String × PersonTracker),
      alLookup pid (l.foldl (updateOnePerson cfg camera_id ppe_detections now) acc).1 =
        alLookup pid acc.1 ∧
      alLookup pid (l.foldl (updateOnePerson cfg camera_id ppe_detections now) acc).2 =
        alLookup pid acc.2 := by
  induction l with
  | nil => intro acc; exact ⟨rfl, rfl⟩
  | cons d l ih =>
    intro acc
    have hl' : ∀ d' ∈ l, d'.bbox.isEmpty = false →
        generate_person_id d'.bbox camera_id ≠ pid :=
      fun d' hd' => hl d' (List.mem_cons_of_mem _ hd')
    simp only [List.foldl_cons]
    rcases hb : d.bbox.isEmpty with _ | _
    · have hne := hl d (List.mem_cons_self d l) hb
      rw [updateOnePerson_valid cfg camera_id ppe_detections now acc d hb]
      refine ⟨?_, ?_⟩
      · rw [(ih hl' _).1, alLookup_alInsert_ne _ _ hne]
      · rw [(ih hl' _).2, alLookup_alInsert_ne _ _ hne]
    · rw [updateOnePerson_empty cfg camera_id ppe_detections now acc d hb]
      exact ih hl' acc

/-- The people-update fold preserves key-nodup of the tracker map. -/
theorem updateFold_nodup (cfg : Config) (camera_id : String)
    (ppe_detections : List Detection) (now : ℚ) (l : List Detection) :
    ∀ acc : List (String × PersonTracker) × List (String × PersonTracker),
      (acc.1.map Prod.fst).Nodup →
      ((l.foldl (updateOnePerson cfg camera_id ppe_detections now) acc).1.map Prod.fst).Nodup := by
  induction l with
  | nil => intro acc h; exact h
  | cons d l ih =>
    intro acc h
    simp only [List.foldl_cons]
    apply ih
    rcases hb : d.bbox.isEmpty with _ | _
    · rw [updateOnePerson_valid cfg camera_id ppe_detections now acc d hb]
      exact alInsert_keys_nodup _ _ h
    · rw [updateOnePerson_empty cfg camera_id ppe_detections now acc d hb]
      exact h

/-- isSome of both lookups survives the people-update fold. -/
theorem updateFold_isSome (cfg : Config) (camera_id : String)
    (ppe_detections : List Detection) (now : ℚ) (pid : String) (l : List Detection) :
    ∀ acc : List (String × PersonTracker) × List (String × PersonTracker),
      (alLookup pid acc.1).isSome = true → (alLookup pid acc.2).isSome = true →
      (alLookup pid (l.foldl (updateOnePerson cfg camera_id ppe_detections now) acc).1).isSome
        = true ∧
      (alLookup pid (l.foldl (updateOnePerson cfg camera_id ppe_detections now) acc).2).isSome
        = true := by
  induction l with
  | nil => intro acc h1 h2; exact ⟨h1, h2⟩
  | cons d l ih =>
    intro acc h1 h2
    simp only [List.foldl_cons]
    rcases hb : d.bbox.isEmpty with _ | _
    · rw [updateOnePerson_valid cfg camera_id ppe_detections now acc d hb]
      exact ih _ (alLookup_isSome_alInsert _ _ _ h1) (alLookup_isSome_alInsert _ _ _ h2)
    · rw [updateOnePerson_empty cfg camera_id ppe_detections now acc d hb]
      exact ih _ h1 h2

/-- A valid person detection of the frame leaves its person id present in
both maps after the fold. -/
theorem updateFold_mem (cfg : Config) (camera_id : String)
    (ppe_detections : List Detection) (now : ℚ) (l : List Detection) (d : Detection)
    (hd : d ∈ l) (hb : d.bbox.isEmpty = false) :
    ∀ acc : List (String × PersonTracker) × List (String × PersonTracker),
      (alLookup (generate_person_id d.bbox camera_id)
        (l.foldl (updateOnePerson cfg camera_id ppe_detections now) acc).1).isSome = true ∧
      (alLookup (generate_person_id d.bbox camera_id)
        (l.foldl (updateOnePerson cfg camera_id ppe_detections now) acc).2).isSome = true := by
  induction l with
  | nil => cases hd
  | cons d0 l ih =>
    intro acc
    simp only [List.foldl_cons]
    rcases List.mem_cons.mp hd with h | h
    · subst h
      rw [updateOnePerson_valid cfg camera_id ppe_detections now acc d hb]
      exact updateFold_isSome cfg camera_id ppe_detections now _ l _
        (by rw [alLookup_alInsert_self]; rfl) (by rw [alLookup_alInsert_self]; rfl)
    · exact ih h _

/-- The expiry filter keeps an entry whose id was seen this frame. -/
theorem alLookup_filter_keep (now : ℚ) (cur : List (String × PersonTracker))
    {pid : String} {tr : PersonTracker} {l : List (String × PersonTracker)}
    (hl : alLookup pid l = some tr)
    (hcur : (alLookup pid cur).isSome = true) :
    alLookup pid (l.filter
      (fun pt => (alLookup pt.1 cur).isSome || !(decide (5 < now - pt.2.last_seen)))) =
      some tr := by
  apply alLookup_filter_pass hl
  show ((alLookup pid cur).isSome || !(decide (5 < now - tr.last_seen))) = true
  rw [hcur]
  rfl

/-- The expiry filter drops an entry unseen this frame and silent for more
than 5 seconds. -/
theorem alLookup_filter_drop (now : ℚ) (cur : List (String × PersonTracker))
    {pid : String} {tr : PersonTracker} {l : List (String × PersonTracker)}
    (hnd : (l.map Prod.fst).Nodup) (hl : alLookup pid l = some tr)
    (hcur : alLookup pid cur = none) (hold : 5 < now - tr.last_seen) :
    alLookup pid (l.filter
      (fun pt => (alLookup pt.1 cur).isSome || !(decide (5 < now - pt.2.last_seen)))) =
      none := by
  apply alLookup_filter_fail hnd hl
  show ((alLookup pid cur).isSome || !(decide (5 < now - tr.last_seen))) = false
  rw [hcur]
  simp [hold]

/-- Claim C6: on every `process_detections` call with an active session, a
tracker not refreshed this frame whose last-seen time lies more than 5
seconds in the past is removed from the tracked set, and a tracker refreshed
this frame (some valid person detection regenerates its id) is kept. -/
theorem c6_tracker_expiry (cfg : Config) (s : EngineState) (camera_id sid : String)
    (frame : Frame) (detections : List Detection) (now : ℚ)
    (hsid : s.active_session_id = some sid)
    (hnd : (s.people.map Prod.fst).Nodup) :
    (∀ pid tr, alLookup pid s.people = some tr →
      (∀ d ∈ detections, d.cls.toLower = "person" → d.bbox.isEmpty = false →
        generate_person_id d.bbox camera_id ≠ pid) →
      5 < now - tr.last_seen →
      alLookup pid (process_detections cfg s camera_id frame detections now).1.people
        = none) ∧
    (∀ d ∈ detections, d.cls.toLower = "person" → d.bbox.isEmpty = false →
      (alLookup (generate_person_id d.bbox camera_id)
        (process_detections cfg s camera_id frame detections now).1.people).isSome = true) := by
  rw [process_detections_some cfg s camera_id frame detections now sid hsid]
  simp only []
  constructor
  · intro pid tr hlook hfresh hold
    have hl : ∀ d ∈ detections.filter (fun d => d.cls.toLower == "person"),
        d.bbox.isEmpty = false → generate_person_id d.bbox camera_id ≠ pid := by
      intro d hdf hb
      have hm := List.mem_filter.mp hdf
      exact hfresh d hm.1 (by simpa using hm.2) hb
    have hpres := updateFold_preserves cfg camera_id
      (detections.filter (fun d => ppeClasses.contains d.cls.toLower)) now pid
      (detections.filter (fun d => d.cls.toLower == "person")) hl (s.people, [])
    have hnd1 := updateFold_nodup cfg camera_id
      (detections.filter (fun d => ppeClasses.contains d.cls.toLower)) now
      (detections.filter (fun d => d.cls.toLower == "person")) (s.people, []) hnd
    have hlook1 : alLookup pid
        ((detections.filter (fun d => d.cls.toLower == "person")).foldl
          (updateOnePerson cfg camera_id
            (detections.filter (fun d => ppeClasses.contains d.cls.toLower)) now)
          (s.people, [])).1 = some tr := by
      rw [hpres.1]; exact hlook
    have hcur : alLookup pid
        ((detections.filter (fun d => d.cls.toLower == "person")).foldl
          (updateOnePerson cfg camera_id
            (detections.filter (fun d => ppeClasses.contains d.cls.toLower)) now)
          (s.people, [])).2 = none := by
      rw [hpres.2]; rfl
    exact alLookup_filter_drop now _ hnd1 hlook1 hcur hold
  · intro d hdin hcls hb
    have hdf : d ∈ detections.filter (fun d => d.cls.toLower == "person") :=
      List.mem_filter.mpr ⟨hdin, by simp [hcls]⟩
    have hmem := updateFold_mem cfg camera_id
      (detections.filter (fun d => ppeClasses.contains d.cls.toLower)) now _ d hdf hb
      (s.people, [])
    rcases Option.isSome_iff_exists.mp hmem.1 with ⟨tr1, htr1⟩
    rw [alLookup_filter_keep now _ htr1 hmem.2]
    rfl

/-- Witness for C6: a stale tracker is removed while the freshly seen person
is kept. -/
theorem c6_witness :
    alLookup "cam1_9_9"
      (process_detections cfgDefault
        { sGoggles with people := [("cam1_9_9", mkPersonTracker "cam1_9_9" [4, 4, 14, 14] 0)] }
        "cam1" ⟨480, 640⟩ [personDet] 10).1.people = none ∧
    (alLookup "cam1_150_200"
      (process_detections cfgDefault
        { sGoggles with people := [("cam1_9_9", mkPersonTracker "cam1_9_9" [4, 4, 14, 14] 0)] }
        "cam1" ⟨480, 640⟩ [personDet] 10).1.people).isSome = true := by
  have h := c6_tracker_expiry cfgDefault
    { sGoggles with people := [("cam1_9_9", mkPersonTracker "cam1_9_9" [4, 4, 14, 14] 0)] }
    "cam1" "sess" ⟨480, 640⟩ [personDet] 10 rfl (by simp)
  constructor
  · apply h.1 "cam1_9_9" (mkPersonTracker "cam1_9_9" [4, 4, 14, 14] 0)
    · rfl
    · intro d hd hcls hb
      rcases List.mem_singleton.mp hd with rfl
      with_unfolding_all decide
    · show (5 : ℚ) < 10 - 0
      norm_num
  · have := h.2 personDet (List.mem_singleton.mpr rfl) (by with_unfolding_all decide) rfl
    have hid : generate_person_id personDet.bbox "cam1" = "cam1_150_200" := by
      with_unfolding_all rfl
    rwa [hid] at this

/-! ### C8: malformed detections -/

theorem filter_swap {α : Type} (p q : α → Bool) (l : List α) :
    (l.filter p).filter q = (l.filter q).filter p := by
  induction l with
  | nil => rfl
  | cons d l ih =>
    rcases hp : p d with _ | _ <;> rcases hq : q d with _ | _ <;>
      simp [List.filter_cons, hp, hq, ih]

/-- A fold whose step ignores empty-bbox detections is unchanged by
dropping them. -/
theorem foldl_skip_empty {β : Type} (f : β → Detection → β)
    (hf : ∀ acc d, d.bbox.isEmpty = true → f acc d = acc) (l : List Detection) :
    ∀ acc, l.foldl f acc = (l.filter (fun d => !d.bbox.isEmpty)).foldl f acc := by
  induction l with
  | nil => intro acc; rfl
  | cons d l ih =>
    intro acc
    rcases hb : d.bbox.isEmpty with _ | _
    · simp only [List.foldl_cons, List.filter_cons, hb, Bool.not_false, if_pos,
        List.foldl_cons]
      exact ih (f acc d)
    · simp only [List.foldl_cons, List.filter_cons, hb, Bool.not_true, Bool.false_eq_true,
        if_false, hf acc d hb]
      exact ih acc

/-- PPE matching ignores detections with a missing bbox. -/
theorem match_ppe_filter (cfg : Config) (person_bbox : List ℚ) (l : List Detection) :
    match_ppe_to_person cfg person_bbox (l.filter (fun d => !d.bbox.isEmpty)) =
      match_ppe_to_person cfg person_bbox l := by
  unfold match_ppe_to_person
  rw [← foldl_skip_empty]
  intro acc d hb
  simp [hb]

theorem trackerFor_ppe_filter (cfg : Config) (camera_id : String) (now : ℚ)
    (people : List (String × PersonTracker)) (d : Detection) (ppe : List Detection) :
    trackerFor cfg camera_id (ppe.filter (fun d => !d.bbox.isEmpty)) now people d =
      trackerFor cfg camera_id ppe now people d := by
  unfold trackerFor
  rw [match_ppe_filter]

theorem updateOnePerson_ppe_filter (cfg : Config) (camera_id : String) (now : ℚ)
    (ppe : List Detection) :
    updateOnePerson cfg camera_id (ppe.filter (fun d => !d.bbox.isEmpty)) now =
      updateOnePerson cfg camera_id ppe now := by
  funext acc d
  rcases hb : d.bbox.isEmpty with _ | _
  · rw [updateOnePerson_valid cfg camera_id _ now acc d hb,
      updateOnePerson_valid cfg camera_id ppe now acc d hb,
      trackerFor_ppe_filter]
  · rw [updateOnePerson_empty cfg camera_id _ now acc d hb,
      updateOnePerson_empty cfg camera_id ppe now acc d hb]

/-- Amended claim C8: a detection record with a MISSING bounding box is
individually dropped — processing a frame is identical to processing the
frame with all empty-bbox detections removed — and the remaining detections
are still processed to completion.  (The original claim also called
degenerate non-empty boxes "dropped"; `c8_counterexample` shows a
degenerate person box is not dropped.) -/
theorem c8_missing_bbox_dropped (cfg : Config) (s : EngineState) (camera_id : String)
    (frame : Frame) (detections : List Detection) (now : ℚ) :
    process_detections cfg s camera_id frame detections now =
      process_detections cfg s camera_id frame
        (detections.filter (fun d => !d.bbox.isEmpty)) now := by
  cases hs : s.active_session_id with
  | none => simp [process_detections, hs]
  | some sid =>
    rw [process_detections_some cfg s camera_id frame detections now sid hs,
      process_detections_some cfg s camera_id frame
        (detections.filter (fun d => !d.bbox.isEmpty)) now sid hs]
    simp only []
    rw [@filter_swap Detection (fun d => !d.bbox.isEmpty)
        (fun d => d.cls.toLower == "person") detections,
      @filter_swap Detection (fun d => !d.bbox.isEmpty)
        (fun d => ppeClasses.contains d.cls.toLower) detections,
      updateOnePerson_ppe_filter,
      ← foldl_skip_empty (updateOnePerson cfg camera_id
          (detections.filter (fun d => ppeClasses.contains d.cls.toLower)) now)
        (fun acc d hb => updateOnePerson_empty cfg camera_id _ now acc d hb)
        (detections.filter (fun d => d.cls.toLower == "person")) (s.people, [])]

/-- A person detection with a degenerate (zero-area) but present bbox. -/
def degPerson : Detection := { cls := "person", bbox := [10, 10, 10, 10] }

/-- Counterexample to claim C8 as stated: a person detection with a
DEGENERATE bbox is not dropped — processing it differs from processing the
frame without it (a tracker keyed by its bbox center is still created). -/
theorem c8_counterexample :
    process_detections cfgDefault sGoggles "cam1" ⟨480, 640⟩ [degPerson] 0 ≠
      process_detections cfgDefault sGoggles "cam1" ⟨480, 640⟩ [] 0 ∧
    (alLookup "cam1_10_10"
      (process_detections cfgDefault sGoggles "cam1" ⟨480, 640⟩ [degPerson] 0).1.people).isSome
      = true := by
  have h1 : (alLookup "cam1_10_10"
      (process_detections cfgDefault sGoggles "cam1" ⟨480, 640⟩ [degPerson] 0).1.people).isSome
      = true := by
    with_unfolding_all rfl
  have h2 : (alLookup "cam1_10_10"
      (process_detections cfgDefault sGoggles "cam1" ⟨480, 640⟩ [] 0).1.people).isSome
      = false := by
    with_unfolding_all rfl
  refine ⟨fun h => ?_, h1⟩
  rw [h] at h1
  exact Bool.noConfusion (h1.symm.trans h2)

/-! ### The violation state machine, per key (for C3 and C5) -/

/-- The alerts of one violation key among an emission list. -/
def alertsFor (camera_id person_id ppe_class : String) (l : List Alert) : List Alert :=
  l.filter (fun a =>
    a.camera_id == camera_id && a.person_id == person_id && a.missing_ppe == ppe_class)

theorem alertsFor_append (camera_id person_id ppe_class : String) (l1 l2 : List Alert) :
    alertsFor camera_id person_id ppe_class (l1 ++ l2) =
      alertsFor camera_id person_id ppe_class l1 ++
        alertsFor camera_id person_id ppe_class l2 := by
  simp [alertsFor]

/-- Distinct PPE kinds give distinct violation keys (for the same camera and
person). -/
theorem violation_key_ne (camera_id person_id : String) {k k' : String} (h : k ≠ k') :
    violation_key camera_id person_id k ≠ violation_key camera_id person_id k' := by
  intro he
  apply h
  have hd := congrArg String.data he
  simp only [violation_key, String.data_append, List.append_right_inj] at hd
  exact String.ext hd

/-- A tracker whose PPE map is empty has no PPE of any kind. -/
theorem has_ppe_of_ppe_nil {tr : PersonTracker} (h : tr.ppe = []) (c : String) :
    tr.has_ppe c = false := by
  simp [PersonTracker.has_ppe, h, alLookup]

/-- With no PPE detections in the frame, the stored tracker's PPE map is
empty. -/
theorem trackerFor_no_ppe (cfg : Config) (camera_id : String) (now : ℚ)
    (people : List (String × PersonTracker)) (d : Detection) :
    (trackerFor cfg camera_id [] now people d).ppe = [] := by
  unfold trackerFor
  cases alLookup (generate_person_id d.bbox camera_id) people <;> rfl

/-- The `VioData` record stored by `_trigger_violation_alert`. -/
def firedData (camera_id person_id k : String) (fr : Frame) (bbox : List ℚ) (now : ℚ) :
    VioData :=
  { camera_id := camera_id, person_id := person_id, missing_ppe := k, timestamp := now,
    crop := cropRegion fr bbox, bbox := bbox }

/-- The alert record emitted by `_trigger_violation_alert`. -/
def firedAlert (sid camera_id person_id k : String) (fr : Frame) (bbox : List ℚ)
    (now : ℚ) : Alert :=
  { session_id := sid, camera_id := camera_id, person_id := person_id, missing_ppe := k,
    crop := cropRegion fr bbox, bbox := bbox, timestamp := now }

theorem trigger_violation_alert_eq (cfg : Config) (camera_id person_id sid : String)
    (tracker : PersonTracker) (missing_ppe : String) (frame : Frame) (now : ℚ)
    (acc : VioMaps × List Alert) :
    trigger_violation_alert cfg camera_id person_id sid tracker missing_ppe frame now acc =
      ({ acc.1 with
         active := alInsert (violation_key camera_id person_id missing_ppe)
           (firedData camera_id person_id missing_ppe frame tracker.bbox now) acc.1.active,
         cooldowns := alInsert (violation_key camera_id person_id missing_ppe)
           (now + cfg.violation_cooldown_seconds) acc.1.cooldowns },
       acc.2 ++ [firedAlert sid camera_id person_id missing_ppe frame tracker.bbox now]) :=
  rfl

theorem checkAC_compliant (cfg : Config) (camera_id person_id sid : String)
    (tr : PersonTracker) (fr : Frame) (now : ℚ) (vm : VioMaps) (al : List Alert)
    (k : String) (hp : tr.has_ppe k = true) :
    checkAfterCooldown cfg camera_id person_id sid tr fr now (vm, al) k =
      ({ vm with
         start_times := alErase (violation_key camera_id person_id k) vm.start_times,
         active := alErase (violation_key camera_id person_id k) vm.active }, al) := by
  simp [checkAfterCooldown, hp]

theorem checkAC_pending_nofire (cfg : Config) (camera_id person_id sid : String)
    (tr : PersonTracker) (fr : Frame) (now : ℚ) (vm : VioMaps) (al : List Alert)
    (k : String) (t0 : ℚ) (hp : tr.has_ppe k = false)
    (hst : alLookup (violation_key camera_id person_id k) vm.start_times = some t0)
    (hlt : ¬(cfg.violation_debounce_seconds ≤ now - t0)) :
    checkAfterCooldown cfg camera_id person_id sid tr fr now (vm, al) k = (vm, al) := by
  simp [checkAfterCooldown, hp, hst, hlt]

theorem checkAC_pending_fire (cfg : Config) (camera_id person_id sid : String)
    (tr : PersonTracker) (fr : Frame) (now : ℚ) (vm : VioMaps) (al : List Alert)
    (k : String) (t0 : ℚ) (hp : tr.has_ppe k = false)
    (hst : alLookup (violation_key camera_id person_id k) vm.start_times = some t0)
    (hav : alLookup (violation_key camera_id person_id k) vm.active = none)
    (hge : cfg.violation_debounce_seconds ≤ now - t0) :
    checkAfterCooldown cfg camera_id person_id sid tr fr now (vm, al) k =
      ({ vm with
         active := alInsert (violation_key camera_id person_id k)
           (firedData camera_id person_id k fr tr.bbox now) vm.active,
         cooldowns := alInsert (violation_key camera_id person_id k)
           (now + cfg.violation_cooldown_seconds) vm.cooldowns },
       al ++ [firedAlert sid camera_id person_id k fr tr.bbox now]) := by
  simp [checkAfterCooldown, hp, hst, hge, hav, trigger_violation_alert_eq]

theorem checkAC_fresh_nofire (cfg : Config) (camera_id person_id sid : String)
    (tr : PersonTracker) (fr : Frame) (now : ℚ) (vm : VioMaps) (al : List Alert)
    (k : String) (hp : tr.has_ppe k = false)
    (hst : alLookup (violation_key camera_id person_id k) vm.start_times = none)
    (hlt : ¬(cfg.violation_debounce_seconds ≤ 0)) :
    checkAfterCooldown cfg camera_id person_id sid tr fr now (vm, al) k =
      ({ vm with
         start_times := alInsert (violation_key camera_id person_id k) now
           vm.start_times }, al) := by
  simp only [checkAfterCooldown, hp, Bool.false_eq_true, if_false, hst,
    alLookup_alInsert_self, Option.getD_some]
  rw [sub_self]
  simp [hlt]

theorem checkAC_fresh_fire (cfg : Config) (camera_id person_id sid : String)
    (tr : PersonTracker) (fr : Frame) (now : ℚ) (vm : VioMaps) (al : List Alert)
    (k : String) (hp : tr.has_ppe k = false)
    (hst : alLookup (violation_key camera_id person_id k) vm.start_times = none)
    (hav : alLookup (violation_key camera_id person_id k) vm.active = none)
    (hge : cfg.violation_debounce_seconds ≤ 0) :
    checkAfterCooldown cfg camera_id person_id sid tr fr now (vm, al) k =
      ({ vm with
         start_times := alInsert (violation_key camera_id person_id k) now vm.start_times,
         active := alInsert (violation_key camera_id person_id k)
           (firedData camera_id person_id k fr tr.bbox now) vm.active,
         cooldowns := alInsert (violation_key camera_id person_id k)
           (now + cfg.violation_cooldown_seconds) vm.cooldowns },
       al ++ [firedAlert sid camera_id person_id k fr tr.bbox now]) := by
  simp only [checkAfterCooldown, hp, Bool.false_eq_true, if_false, hst,
    alLookup_alInsert_self, Option.getD_some]
  rw [sub_self]
  simp [hge, trigger_violation_alert_eq, hav]

theorem checkAC_active_skip (cfg : Config) (camera_id person_id sid : String)
    (tr : PersonTracker) (fr : Frame) (now : ℚ) (vm : VioMaps) (al : List Alert)
    (k : String) (t0 : ℚ) (vd0 : VioData) (hp : tr.has_ppe k = false)
    (hst : alLookup (violation_key camera_id person_id k) vm.start_times = some t0)
    (hav : alLookup (violation_key camera_id person_id k) vm.active = some vd0) :
    checkAfterCooldown cfg camera_id person_id sid tr fr now (vm, al) k = (vm, al) := by
  by_cases hdeb : cfg.violation_debounce_seconds ≤ now - t0 <;>
    simp [checkAfterCooldown, hp, hst, hav, hdeb]

theorem check_one_ppe_not_required (cfg : Config) (camera_id person_id sid : String)
    (tr : PersonTracker) (fr : Frame) (now : ℚ) (acc : VioMaps × List Alert)
    (k : String) :
    check_one_ppe cfg camera_id person_id sid tr fr now acc (k, false) = acc := by
  simp [check_one_ppe]

theorem check_one_ppe_no_cooldown (cfg : Config) (camera_id person_id sid : String)
    (tr : PersonTracker) (fr : Frame) (now : ℚ) (acc : VioMaps × List Alert)
    (k : String)
    (hcd : alLookup (violation_key camera_id person_id k) acc.1.cooldowns = none) :
    check_one_ppe cfg camera_id person_id sid tr fr now acc (k, true) =
      checkAfterCooldown cfg camera_id person_id sid tr fr now acc k := by
  simp [check_one_ppe, hcd]

theorem check_one_ppe_in_cooldown (cfg : Config) (camera_id person_id sid : String)
    (tr : PersonTracker) (fr : Frame) (now : ℚ) (acc : VioMaps × List Alert)
    (k : String) (u : ℚ)
    (hcd : alLookup (violation_key camera_id person_id k) acc.1.cooldowns = some u)
    (hnu : now < u) :
    check_one_ppe cfg camera_id person_id sid tr fr now acc (k, true) = acc := by
  simp [check_one_ppe, hcd, hnu]

theorem check_one_ppe_cooldown_expired (cfg : Config) (camera_id person_id sid : String)
    (tr : PersonTracker) (fr : Frame) (now : ℚ) (acc : VioMaps × List Alert)
    (k : String) (u : ℚ)
    (hcd : alLookup (violation_key camera_id person_id k) acc.1.cooldowns = some u)
    (hnu : ¬(now < u)) :
    check_one_ppe cfg camera_id person_id sid tr fr now acc (k, true) =
      checkAfterCooldown cfg camera_id person_id sid tr fr now
        ({ acc.1 with
           cooldowns := alErase (violation_key camera_id person_id k) acc.1.cooldowns },
         acc.2) k := by
  simp [check_one_ppe, hcd, hnu]

theorem checkAC_fresh_active (cfg : Config) (camera_id person_id sid : String)
    (tr : PersonTracker) (fr : Frame) (now : ℚ) (vm : VioMaps) (al : List Alert)
    (k : String) (vd0 : VioData) (hp : tr.has_ppe k = false)
    (hst : alLookup (violation_key camera_id person_id k) vm.start_times = none)
    (hav : alLookup (violation_key camera_id person_id k) vm.active = some vd0)
    (hge : cfg.violation_debounce_seconds ≤ 0) :
    checkAfterCooldown cfg camera_id person_id sid tr fr now (vm, al) k =
      ({ vm with
         start_times := alInsert (violation_key camera_id person_id k) now
           vm.start_times }, al) := by
  simp only [checkAfterCooldown, hp, Bool.false_eq_true, if_false, hst,
    alLookup_alInsert_self, Option.getD_some]
  rw [sub_self]
  simp [hge, hav]

theorem alertsFor_single_other (camera_id person_id k sid : String) {k' : String}
    (fr : Frame) (bbox : List ℚ) (now : ℚ) (hkk : k' ≠ k) :
    alertsFor camera_id person_id k [firedAlert sid camera_id person_id k' fr bbox now]
      = [] := by
  simp [alertsFor, firedAlert, hkk]

theorem alertsFor_single_self (camera_id person_id k sid : String)
    (fr : Frame) (bbox : List ℚ) (now : ℚ) :
    alertsFor camera_id person_id k [firedAlert sid camera_id person_id k fr bbox now]
      = [firedAlert sid camera_id person_id k fr bbox now] := by
  simp [alertsFor, firedAlert]

/-- Non-interference: the per-kind check for kind `k'` never touches the
violation key of a different kind `k` (same camera and person), and emits no
alert for it. -/
theorem checkAC_other (cfg : Config) (camera_id person_id sid : String)
    (tr : PersonTracker) (fr : Frame) (now : ℚ) (vm : VioMaps) (al : List Alert)
    (k' k : String) (hkk : k' ≠ k) :
    alLookup (violation_key camera_id person_id k)
        (checkAfterCooldown cfg camera_id person_id sid tr fr now (vm, al) k').1.start_times
      = alLookup (violation_key camera_id person_id k) vm.start_times ∧
    alLookup (violation_key camera_id person_id k)
        (checkAfterCooldown cfg camera_id person_id sid tr fr now (vm, al) k').1.active
      = alLookup (violation_key camera_id person_id k) vm.active ∧
    alLookup (violation_key camera_id person_id k)
        (checkAfterCooldown cfg camera_id person_id sid tr fr now (vm, al) k').1.cooldowns
      = alLookup (violation_key camera_id person_id k) vm.cooldowns ∧
    alertsFor camera_id person_id k
        (checkAfterCooldown cfg camera_id person_id sid tr fr now (vm, al) k').2
      = alertsFor camera_id person_id k al ∧
    ((vm.start_times.map Prod.fst).Nodup →
      ((checkAfterCooldown cfg camera_id person_id sid tr fr now
        (vm, al) k').1.start_times.map Prod.fst).Nodup) ∧
    ((vm.active.map Prod.fst).Nodup →
      ((checkAfterCooldown cfg camera_id person_id sid tr fr now
        (vm, al) k').1.active.map Prod.fst).Nodup) := by
  have hne := violation_key_ne camera_id person_id hkk
  rcases hp : tr.has_ppe k' with _ | _
  · rcases hst : alLookup (violation_key camera_id person_id k') vm.start_times
      with _ | t0
    · by_cases hdeb : cfg.violation_debounce_seconds ≤ 0
      · rcases hav : alLookup (violation_key camera_id person_id k') vm.active
          with _ | vd0
        · rw [checkAC_fresh_fire cfg camera_id person_id sid tr fr now vm al k'
            hp hst hav hdeb]
          exact ⟨alLookup_alInsert_ne _ _ hne, alLookup_alInsert_ne _ _ hne,
            alLookup_alInsert_ne _ _ hne,
            by rw [alertsFor_append,
              alertsFor_single_other camera_id person_id k sid fr tr.bbox now hkk,
              List.append_nil],
            fun h => alInsert_keys_nodup _ _ h, fun h => alInsert_keys_nodup _ _ h⟩
        · rw [checkAC_fresh_active cfg camera_id person_id sid tr fr now vm al k'
            vd0 hp hst hav hdeb]
          exact ⟨alLookup_alInsert_ne _ _ hne, rfl, rfl, rfl,
            fun h => alInsert_keys_nodup _ _ h, fun h => h⟩
      · rw [checkAC_fresh_nofire cfg camera_id person_id sid tr fr now vm al k'
          hp hst hdeb]
        exact ⟨alLookup_alInsert_ne _ _ hne, rfl, rfl, rfl,
          fun h => alInsert_keys_nodup _ _ h, fun h => h⟩
    · by_cases hdeb : cfg.violation_debounce_seconds ≤ now - t0
      · rcases hav : alLookup (violation_key camera_id person_id k') vm.active
          with _ | vd0
        · rw [checkAC_pending_fire cfg camera_id person_id sid tr fr now vm al k' t0
            hp hst hav hdeb]
          exact ⟨rfl, alLookup_alInsert_ne _ _ hne, alLookup_alInsert_ne _ _ hne,
            by rw [alertsFor_append,
              alertsFor_single_other camera_id person_id k sid fr tr.bbox now hkk,
              List.append_nil],
            fun h => h, fun h => alInsert_keys_nodup _ _ h⟩
        · rw [checkAC_active_skip cfg camera_id person_id sid tr fr now vm al k' t0
            vd0 hp hst hav]
          exact ⟨rfl, rfl, rfl, rfl, fun h => h, fun h => h⟩
      · rw [checkAC_pending_nofire cfg camera_id person_id sid tr fr now vm al k' t0
          hp hst hdeb]
        exact ⟨rfl, rfl, rfl, rfl, fun h => h, fun h => h⟩
  · rw [checkAC_compliant cfg camera_id person_id sid tr fr now vm al k' hp]
    exact ⟨alLookup_alErase_ne _ hne, alLookup_alErase_ne _ hne, rfl, rfl,
      fun h => alErase_keys_nodup _ h, fun h => alErase_keys_nodup _ h⟩

/-- Non-interference lifted to `check_one_ppe` for an arbitrary entry of a
different kind. -/
theorem check_one_ppe_other (cfg : Config) (camera_id person_id sid : String)
    (tr : PersonTracker) (fr : Frame) (now : ℚ) (acc : VioMaps × List Alert)
    (entry : String × Bool) (k : String) (hkk : entry.1 ≠ k) :
    alLookup (violation_key camera_id person_id k)
        (check_one_ppe cfg camera_id person_id sid tr fr now acc entry).1.start_times
      = alLookup (violation_key camera_id person_id k) acc.1.start_times ∧
    alLookup (violation_key camera_id person_id k)
        (check_one_ppe cfg camera_id person_id sid tr fr now acc entry).1.active
      = alLookup (violation_key camera_id person_id k) acc.1.active ∧
    alLookup (violation_key camera_id person_id k)
        (check_one_ppe cfg camera_id person_id sid tr fr now acc entry).1.cooldowns
      = alLookup (violation_key camera_id person_id k) acc.1.cooldowns ∧
    alertsFor camera_id person_id k
        (check_one_ppe cfg camera_id person_id sid tr fr now acc entry).2
      = alertsFor camera_id person_id k acc.2 ∧
    ((acc.1.start_times.map Prod.fst).Nodup →
      (((check_one_ppe cfg camera_id person_id sid tr fr now acc
        entry).1.start_times).map Prod.fst).Nodup) ∧
    ((acc.1.active.map Prod.fst).Nodup →
      (((check_one_ppe cfg camera_id person_id sid tr fr now acc
        entry).1.active).map Prod.fst).Nodup) := by
  obtain ⟨k', b⟩ := entry
  simp only at hkk
  have hne := violation_key_ne camera_id person_id hkk
  rcases b with _ | _
  · rw [check_one_ppe_not_required]
    exact ⟨rfl, rfl, rfl, rfl, fun h => h, fun h => h⟩
  · rcases hcd : alLookup (violation_key camera_id person_id k') acc.1.cooldowns
      with _ | u
    · rw [check_one_ppe_no_cooldown cfg camera_id person_id sid tr fr now acc k' hcd]
      exact checkAC_other cfg camera_id person_id sid tr fr now acc.1 acc.2 k' k hkk
    · by_cases hnu : now < u
      · rw [check_one_ppe_in_cooldown cfg camera_id person_id sid tr fr now acc k' u
          hcd hnu]
        exact ⟨rfl, rfl, rfl, rfl, fun h => h, fun h => h⟩
      · rw [check_one_ppe_cooldown_expired cfg camera_id person_id sid tr fr now acc k' u
          hcd hnu]
        have h2 := checkAC_other cfg camera_id person_id sid tr fr now
          { acc.1 with
            cooldowns := alErase (violation_key camera_id person_id k') acc.1.cooldowns }
          acc.2 k' k hkk
        refine ⟨h2.1, h2.2.1, ?_, h2.2.2.2.1, h2.2.2.2.2.1, h2.2.2.2.2.2⟩
        rw [h2.2.2.1]
        exact alLookup_alErase_ne _ hne

/-- Non-interference over a whole required-PPE segment containing no entry
of kind `k`. -/
theorem check_fold_other (cfg : Config) (camera_id person_id sid : String)
    (tr : PersonTracker) (fr : Frame) (now : ℚ) (k : String)
    (l : List (String × Bool)) (hl : ∀ p ∈ l, p.1 ≠ k) :
    ∀ acc : VioMaps × List Alert,
    alLookup (violation_key camera_id person_id k)
        (l.foldl (check_one_ppe cfg camera_id person_id sid tr fr now) acc).1.start_times
      = alLookup (violation_key camera_id person_id k) acc.1.start_times ∧
    alLookup (violation_key camera_id person_id k)
        (l.foldl (check_one_ppe cfg camera_id person_id sid tr fr now) acc).1.active
      = alLookup (violation_key camera_id person_id k) acc.1.active ∧
    alLookup (violation_key camera_id person_id k)
        (l.foldl (check_one_ppe cfg camera_id person_id sid tr fr now) acc).1.cooldowns
      = alLookup (violation_key camera_id person_id k) acc.1.cooldowns ∧
    alertsFor camera_id person_id k
        (l.foldl (check_one_ppe cfg camera_id person_id sid tr fr now) acc).2
      = alertsFor camera_id person_id k acc.2 ∧
    ((acc.1.start_times.map Prod.fst).Nodup →
      (((l.foldl (check_one_ppe cfg camera_id person_id sid tr fr now)
        acc).1.start_times).map Prod.fst).Nodup) ∧
    ((acc.1.active.map Prod.fst).Nodup →
      (((l.foldl (check_one_ppe cfg camera_id person_id sid tr fr now)
        acc).1.active).map Prod.fst).Nodup) := by
  induction l with
  | nil => intro acc; exact ⟨rfl, rfl, rfl, rfl, fun h => h, fun h => h⟩
  | cons e l ih =>
    intro acc
    have he := check_one_ppe_other cfg camera_id person_id sid tr fr now acc e k
      (hl e (List.mem_cons_self e l))
    have ih' := ih (fun p hp => hl p (List.mem_cons_of_mem _ hp))
      (check_one_ppe cfg camera_id person_id sid tr fr now acc e)
    simp only [List.foldl_cons]
    refine ⟨ih'.1.trans he.1, ih'.2.1.trans he.2.1, ih'.2.2.1.trans he.2.2.1,
      ih'.2.2.2.1.trans he.2.2.2.1, ?_, ?_⟩
    · exact fun h => ih'.2.2.2.2.1 (he.2.2.2.2.1 h)
    · exact fun h => ih'.2.2.2.2.2 (he.2.2.2.2.2 h)

/-- Claim C5: if a person whose violation key is Pending (a start time is
recorded, no active entry) and not in cooldown is observed with the required
PPE present before the debounce threshold elapses, `_check_violations` emits
no alert for that key and clears the pending entry (and any active entry),
returning the key to Compliant. -/
theorem c5_compliance_clears_pending (cfg : Config) (camera_id person_id sid k : String)
    (tr : PersonTracker) (fr : Frame) (now t0 : ℚ)
    (l1 l2 : List (String × Bool)) (vm : VioMaps) (al : List Alert)
    (hl1 : ∀ p ∈ l1, p.1 ≠ k) (hl2 : ∀ p ∈ l2, p.1 ≠ k)
    (hppe : tr.has_ppe k = true)
    (hcd : alLookup (violation_key camera_id person_id k) vm.cooldowns = none)
    (hst : alLookup (violation_key camera_id person_id k) vm.start_times = some t0)
    (hav : alLookup (violation_key camera_id person_id k) vm.active = none)
    (hdeb : now - t0 < cfg.violation_debounce_seconds)
    (hndst : (vm.start_times.map Prod.fst).Nodup)
    (hndav : (vm.active.map Prod.fst).Nodup) :
    alLookup (violation_key camera_id person_id k)
      (check_violations cfg camera_id person_id sid tr fr now (l1 ++ (k, true) :: l2)
        (vm, al)).1.start_times = none ∧
    alLookup (violation_key camera_id person_id k)
      (check_violations cfg camera_id person_id sid tr fr now (l1 ++ (k, true) :: l2)
        (vm, al)).1.active = none ∧
    alertsFor camera_id person_id k
      (check_violations cfg camera_id person_id sid tr fr now (l1 ++ (k, true) :: l2)
        (vm, al)).2 = alertsFor camera_id person_id k al := by
  have h1 := check_fold_other cfg camera_id person_id sid tr fr now k l1 hl1 (vm, al)
  rw [check_violations, List.foldl_append, List.foldl_cons]
  rcases hA1 : l1.foldl (check_one_ppe cfg camera_id person_id sid tr fr now) (vm, al)
    with ⟨vm1, al1⟩
  rw [hA1] at h1
  simp only at h1
  have hcd1 : alLookup (violation_key camera_id person_id k) vm1.cooldowns = none :=
    h1.2.2.1.trans hcd
  rw [check_one_ppe_no_cooldown cfg camera_id person_id sid tr fr now (vm1, al1) k hcd1,
    checkAC_compliant cfg camera_id person_id sid tr fr now vm1 al1 k hppe]
  have hndst1 : (vm1.start_times.map Prod.fst).Nodup := h1.2.2.2.2.1 hndst
  have hndav1 : (vm1.active.map Prod.fst).Nodup := h1.2.2.2.2.2 hndav
  have h2 := check_fold_other cfg camera_id person_id sid tr fr now k l2 hl2
    ({ vm1 with
       start_times := alErase (violation_key camera_id person_id k) vm1.start_times,
       active := alErase (violation_key camera_id person_id k) vm1.active }, al1)
  refine ⟨?_, ?_, ?_⟩
  · rw [h2.1]
    exact alLookup_alErase_self hndst1
  · rw [h2.2.1]
    exact alLookup_alErase_self hndav1
  · rw [h2.2.2.2.1]
    exact h1.2.2.2.1

/-- Phase lemma (Pending, threshold not reached): the key stays Pending with
the same start time and no alert for it is emitted. -/
theorem check_violations_pending_nofire (cfg : Config)
    (camera_id person_id sid k : String) (tr : PersonTracker) (fr : Frame)
    (now t0 : ℚ) (l1 l2 : List (String × Bool)) (vm : VioMaps) (al : List Alert)
    (hl1 : ∀ p ∈ l1, p.1 ≠ k) (hl2 : ∀ p ∈ l2, p.1 ≠ k)
    (hppe : tr.has_ppe k = false)
    (hcd : alLookup (violation_key camera_id person_id k) vm.cooldowns = none)
    (hst : alLookup (violation_key camera_id person_id k) vm.start_times = some t0)
    (hav : alLookup (violation_key camera_id person_id k) vm.active = none)
    (hlt : ¬(cfg.violation_debounce_seconds ≤ now - t0)) :
    alLookup (violation_key camera_id person_id k)
      (check_violations cfg camera_id person_id sid tr fr now (l1 ++ (k, true) :: l2)
        (vm, al)).1.start_times = some t0 ∧
    alLookup (violation_key camera_id person_id k)
      (check_violations cfg camera_id person_id sid tr fr now (l1 ++ (k, true) :: l2)
        (vm, al)).1.active = none ∧
    alLookup (violation_key camera_id person_id k)
      (check_violations cfg camera_id person_id sid tr fr now (l1 ++ (k, true) :: l2)
        (vm, al)).1.cooldowns = none ∧
    alertsFor camera_id person_id k
      (check_violations cfg camera_id person_id sid tr fr now (l1 ++ (k, true) :: l2)
        (vm, al)).2 = alertsFor camera_id person_id k al := by
  have h1 := check_fold_other cfg camera_id person_id sid tr fr now k l1 hl1 (vm, al)
  rw [check_violations, List.foldl_append, List.foldl_cons]
  rcases hA1 : l1.foldl (check_one_ppe cfg camera_id person_id sid tr fr now) (vm, al)
    with ⟨vm1, al1⟩
  rw [hA1] at h1
  simp only at h1
  rw [check_one_ppe_no_cooldown cfg camera_id person_id sid tr fr now (vm1, al1) k
      (h1.2.2.1.trans hcd),
    checkAC_pending_nofire cfg camera_id person_id sid tr fr now vm1 al1 k t0 hppe
      (h1.1.trans hst) hlt]
  have h2 := check_fold_other cfg camera_id person_id sid tr fr now k l2 hl2 (vm1, al1)
  refine ⟨?_, ?_, ?_, ?_⟩
  · rw [h2.1]; exact h1.1.trans hst
  · rw [h2.2.1]; exact h1.2.1.trans hav
  · rw [h2.2.2.1]; exact h1.2.2.1.trans hcd
  · rw [h2.2.2.2.1]; exact h1.2.2.2.1

/-- Phase lemma (Pending, threshold reached, not yet Active): exactly one
alert for the key is emitted, stamped `now`, and the key becomes Active. -/
theorem check_violations_pending_fire (cfg : Config)
    (camera_id person_id sid k : String) (tr : PersonTracker) (fr : Frame)
    (now t0 : ℚ) (l1 l2 : List (String × Bool)) (vm : VioMaps) (al : List Alert)
    (hl1 : ∀ p ∈ l1, p.1 ≠ k) (hl2 : ∀ p ∈ l2, p.1 ≠ k)
    (hppe : tr.has_ppe k = false)
    (hcd : alLookup (violation_key camera_id person_id k) vm.cooldowns = none)
    (hst : alLookup (violation_key camera_id person_id k) vm.start_times = some t0)
    (hav : alLookup (violation_key camera_id person_id k) vm.active = none)
    (hge : cfg.violation_debounce_seconds ≤ now - t0) :
    alLookup (violation_key camera_id person_id k)
      (check_violations cfg camera_id person_id sid tr fr now (l1 ++ (k, true) :: l2)
        (vm, al)).1.start_times = some t0 ∧
    alLookup (violation_key camera_id person_id k)
      (check_violations cfg camera_id person_id sid tr fr now (l1 ++ (k, true) :: l2)
        (vm, al)).1.active = some (firedData camera_id person_id k fr tr.bbox now) ∧
    alertsFor camera_id person_id k
      (check_violations cfg camera_id person_id sid tr fr now (l1 ++ (k, true) :: l2)
        (vm, al)).2 =
      alertsFor camera_id person_id k al ++
        [firedAlert sid camera_id person_id k fr tr.bbox now] := by
  have h1 := check_fold_other cfg camera_id person_id sid tr fr now k l1 hl1 (vm, al)
  rw [check_violations, List.foldl_append, List.foldl_cons]
  rcases hA1 : l1.foldl (check_one_ppe cfg camera_id person_id sid tr fr now) (vm, al)
    with ⟨vm1, al1⟩
  rw [hA1] at h1
  simp only at h1
  rw [check_one_ppe_no_cooldown cfg camera_id person_id sid tr fr now (vm1, al1) k
      (h1.2.2.1.trans hcd),
    checkAC_pending_fire cfg camera_id person_id sid tr fr now vm1 al1 k t0 hppe
      (h1.1.trans hst) (h1.2.1.trans hav) hge]
  have h2 := check_fold_other cfg camera_id person_id sid tr fr now k l2 hl2
    ({ vm1 with
       active := alInsert (violation_key camera_id person_id k)
         (firedData camera_id person_id k fr tr.bbox now) vm1.active,
       cooldowns := alInsert (violation_key camera_id person_id k)
         (now + cfg.violation_cooldown_seconds) vm1.cooldowns },
     al1 ++ [firedAlert sid camera_id person_id k fr tr.bbox now])
  refine ⟨?_, ?_, ?_⟩
  · rw [h2.1]; exact h1.1.trans hst
  · rw [h2.2.1]
    exact alLookup_alInsert_self _ _ _
  · rw [h2.2.2.2.1, alertsFor_append, alertsFor_single_self, h1.2.2.2.1]

/-- Phase lemma (no prior state, threshold not yet reachable): the key
enters Pending stamped `now`, no alert. -/
theorem check_violations_fresh_nofire (cfg : Config)
    (camera_id person_id sid k : String) (tr : PersonTracker) (fr : Frame)
    (now : ℚ) (l1 l2 : List (String × Bool)) (vm : VioMaps) (al : List Alert)
    (hl1 : ∀ p ∈ l1, p.1 ≠ k) (hl2 : ∀ p ∈ l2, p.1 ≠ k)
    (hppe : tr.has_ppe k = false)
    (hcd : alLookup (violation_key camera_id person_id k) vm.cooldowns = none)
    (hst : alLookup (violation_key camera_id person_id k) vm.start_times = none)
    (hav : alLookup (violation_key camera_id person_id k) vm.active = none)
    (hlt : ¬(cfg.violation_debounce_seconds ≤ 0)) :
    alLookup (violation_key camera_id person_id k)
      (check_violations cfg camera_id person_id sid tr fr now (l1 ++ (k, true) :: l2)
        (vm, al)).1.start_times = some now ∧
    alLookup (violation_key camera_id person_id k)
      (check_violations cfg camera_id person_id sid tr fr now (l1 ++ (k, true) :: l2)
        (vm, al)).1.active = none ∧
    alLookup (violation_key camera_id person_id k)
      (check_violations cfg camera_id person_id sid tr fr now (l1 ++ (k, true) :: l2)
        (vm, al)).1.cooldowns = none ∧
    alertsFor camera_id person_id k
      (check_violations cfg camera_id person_id sid tr fr now (l1 ++ (k, true) :: l2)
        (vm, al)).2 = alertsFor camera_id person_id k al := by
  have h1 := check_fold_other cfg camera_id person_id sid tr fr now k l1 hl1 (vm, al)
  rw [check_violations, List.foldl_append, List.foldl_cons]
  rcases hA1 : l1.foldl (check_one_ppe cfg camera_id person_id sid tr fr now) (vm, al)
    with ⟨vm1, al1⟩
  rw [hA1] at h1
  simp only at h1
  rw [check_one_ppe_no_cooldown cfg camera_id person_id sid tr fr now (vm1, al1) k
      (h1.2.2.1.trans hcd),
    checkAC_fresh_nofire cfg camera_id person_id sid tr fr now vm1 al1 k hppe
      (h1.1.trans hst) hlt]
  have h2 := check_fold_other cfg camera_id person_id sid tr fr now k l2 hl2
    ({ vm1 with
       start_times := alInsert (violation_key camera_id person_id k) now
         vm1.start_times }, al1)
  refine ⟨?_, ?_, ?_, ?_⟩
  · rw [h2.1]
    exact alLookup_alInsert_self _ _ _
  · rw [h2.2.1]; exact h1.2.1.trans hav
  · rw [h2.2.2.1]; exact h1.2.2.1.trans hcd
  · rw [h2.2.2.2.1]; exact h1.2.2.2.1

/-- Phase lemma (no prior state, zero or negative debounce): the alert fires
on the very first non-compliant frame. -/
theorem check_violations_fresh_fire (cfg : Config)
    (camera_id person_id sid k : String) (tr : PersonTracker) (fr : Frame)
    (now : ℚ) (l1 l2 : List (String × Bool)) (vm : VioMaps) (al : List Alert)
    (hl1 : ∀ p ∈ l1, p.1 ≠ k) (hl2 : ∀ p ∈ l2, p.1 ≠ k)
    (hppe : tr.has_ppe k = false)
    (hcd : alLookup (violation_key camera_id person_id k) vm.cooldowns = none)
    (hst : alLookup (violation_key camera_id person_id k) vm.start_times = none)
    (hav : alLookup (violation_key camera_id person_id k) vm.active = none)
    (hge : cfg.violation_debounce_seconds ≤ 0) :
    alLookup (violation_key camera_id person_id k)
      (check_violations cfg camera_id person_id sid tr fr now (l1 ++ (k, true) :: l2)
        (vm, al)).1.start_times = some now ∧
    alLookup (violation_key camera_id person_id k)
      (check_violations cfg camera_id person_id sid tr fr now (l1 ++ (k, true) :: l2)
        (vm, al)).1.active = some (firedData camera_id person_id k fr tr.bbox now) ∧
    alertsFor camera_id person_id k
      (check_violations cfg camera_id person_id sid tr fr now (l1 ++ (k, true) :: l2)
        (vm, al)).2 =
      alertsFor camera_id person_id k al ++
        [firedAlert sid camera_id person_id k fr tr.bbox now] := by
  have h1 := check_fold_other cfg camera_id person_id sid tr fr now k l1 hl1 (vm, al)
  rw [check_violations, List.foldl_append, List.foldl_cons]
  rcases hA1 : l1.foldl (check_one_ppe cfg camera_id person_id sid tr fr now) (vm, al)
    with ⟨vm1, al1⟩
  rw [hA1] at h1
  simp only at h1
  rw [check_one_ppe_no_cooldown cfg camera_id person_id sid tr fr now (vm1, al1) k
      (h1.2.2.1.trans hcd),
    checkAC_fresh_fire cfg camera_id person_id sid tr fr now vm1 al1 k hppe
      (h1.1.trans hst) (h1.2.1.trans hav) hge]
  have h2 := check_fold_other cfg camera_id person_id sid tr fr now k l2 hl2
    ({ vm1 with
       start_times := alInsert (violation_key camera_id person_id k) now vm1.start_times,
       active := alInsert (violation_key camera_id person_id k)
         (firedData camera_id person_id k fr tr.bbox now) vm1.active,
       cooldowns := alInsert (violation_key camera_id person_id k)
         (now + cfg.violation_cooldown_seconds) vm1.cooldowns },
     al1 ++ [firedAlert sid camera_id person_id k fr tr.bbox now])
  refine ⟨?_, ?_, ?_⟩
  · rw [h2.1]
    exact alLookup_alInsert_self _ _ _
  · rw [h2.2.1]
    exact alLookup_alInsert_self _ _ _
  · rw [h2.2.2.2.1, alertsFor_append, alertsFor_single_self, h1.2.2.2.1]

/-- Phase lemma (Active): once the key is Active and non-compliance
persists, no further alert for it is ever emitted, whatever the cooldown
state. -/
theorem check_violations_active (cfg : Config)
    (camera_id person_id sid k : String) (tr : PersonTracker) (fr : Frame)
    (now t0 : ℚ) (vd0 : VioData) (l1 l2 : List (String × Bool))
    (vm : VioMaps) (al : List Alert)
    (hl1 : ∀ p ∈ l1, p.1 ≠ k) (hl2 : ∀ p ∈ l2, p.1 ≠ k)
    (hppe : tr.has_ppe k = false)
    (hst : alLookup (violation_key camera_id person_id k) vm.start_times = some t0)
    (hav : alLookup (violation_key camera_id person_id k) vm.active = some vd0) :
    alLookup (violation_key camera_id person_id k)
      (check_violations cfg camera_id person_id sid tr fr now (l1 ++ (k, true) :: l2)
        (vm, al)).1.start_times = some t0 ∧
    alLookup (violation_key camera_id person_id k)
      (check_violations cfg camera_id person_id sid tr fr now (l1 ++ (k, true) :: l2)
        (vm, al)).1.active = some vd0 ∧
    alertsFor camera_id person_id k
      (check_violations cfg camera_id person_id sid tr fr now (l1 ++ (k, true) :: l2)
        (vm, al)).2 = alertsFor camera_id person_id k al := by
  have h1 := check_fold_other cfg camera_id person_id sid tr fr now k l1 hl1 (vm, al)
  rw [check_violations, List.foldl_append, List.foldl_cons]
  rcases hA1 : l1.foldl (check_one_ppe cfg camera_id person_id sid tr fr now) (vm, al)
    with ⟨vm1, al1⟩
  rw [hA1] at h1
  simp only at h1
  have hst1 : alLookup (violation_key camera_id person_id k) vm1.start_times = some t0 :=
    h1.1.trans hst
  have hav1 : alLookup (violation_key camera_id person_id k) vm1.active = some vd0 :=
    h1.2.1.trans hav
  have hkey : ∀ M : VioMaps × List Alert,
      alLookup (violation_key camera_id person_id k) M.1.start_times = some t0 →
      alLookup (violation_key camera_id person_id k) M.1.active = some vd0 →
      alertsFor camera_id person_id k M.2 = alertsFor camera_id person_id k al1 →
      alLookup (violation_key camera_id person_id k)
        (l2.foldl (check_one_ppe cfg camera_id person_id sid tr fr now)
          M).1.start_times = some t0 ∧
      alLookup (violation_key camera_id person_id k)
        (l2.foldl (check_one_ppe cfg camera_id person_id sid tr fr now)
          M).1.active = some vd0 ∧
      alertsFor camera_id person_id k
        (l2.foldl (check_one_ppe cfg camera_id person_id sid tr fr now) M).2 =
        alertsFor camera_id person_id k al1 := by
    intro M hMst hMav hMal
    have h2 := check_fold_other cfg camera_id person_id sid tr fr now k l2 hl2 M
    exact ⟨h2.1.trans hMst, h2.2.1.trans hMav, h2.2.2.2.1.trans hMal⟩
  rcases hcd1 : alLookup (violation_key camera_id person_id k) vm1.cooldowns
    with _ | u
  · rw [check_one_ppe_no_cooldown cfg camera_id person_id sid tr fr now (vm1, al1) k hcd1,
      checkAC_active_skip cfg camera_id person_id sid tr fr now vm1 al1 k t0 vd0
        hppe hst1 hav1]
    have hk := hkey (vm1, al1) hst1 hav1 rfl
    exact ⟨hk.1, hk.2.1, hk.2.2.trans h1.2.2.2.1⟩
  · by_cases hnu : now < u
    · rw [check_one_ppe_in_cooldown cfg camera_id person_id sid tr fr now (vm1, al1) k u
        hcd1 hnu]
      have hk := hkey (vm1, al1) hst1 hav1 rfl
      exact ⟨hk.1, hk.2.1, hk.2.2.trans h1.2.2.2.1⟩
    · rw [check_one_ppe_cooldown_expired cfg camera_id person_id sid tr fr now (vm1, al1)
        k u hcd1 hnu]
      rw [checkAC_active_skip cfg camera_id person_id sid tr fr now
        { vm1 with
          cooldowns := alErase (violation_key camera_id person_id k) vm1.cooldowns }
        al1 k t0 vd0 hppe hst1 hav1]
      have hk := hkey ({ vm1 with
          cooldowns := alErase (violation_key camera_id person_id k) vm1.cooldowns },
        al1) hst1 hav1 rfl
      exact ⟨hk.1, hk.2.1, hk.2.2.trans h1.2.2.2.1⟩

theorem toLower_person_eq : ("person" : String).toLower = "person" := by
  with_unfolding_all rfl

theorem person_not_ppe : ppeClasses.contains ("person" : String) = false := by
  with_unfolding_all rfl

/-- Reduction of `process_detections` for a frame containing exactly one
person detection and no PPE detections: the state change on the violation
maps and the emitted alerts are those of `_check_violations` for that person,
with a tracker holding an empty PPE map. -/
theorem process_single_person (cfg : Config) (s : EngineState) (camera_id sid : String)
    (fr : Frame) (x1 y1 x2 y2 conf t : ℚ)
    (hsid : s.active_session_id = some sid) :
    (process_detections cfg s camera_id fr
      [{ cls := "person", bbox := [x1, y1, x2, y2], confidence := conf }]
      t).1.violation_start_times =
      (check_violations cfg camera_id
        (generate_person_id [x1, y1, x2, y2] camera_id) sid
        (trackerFor cfg camera_id [] t s.people
          { cls := "person", bbox := [x1, y1, x2, y2], confidence := conf })
        fr t s.required_ppe
        (⟨s.violation_start_times, s.active_violations, s.violation_cooldowns⟩,
         [])).1.start_times ∧
    (process_detections cfg s camera_id fr
      [{ cls := "person", bbox := [x1, y1, x2, y2], confidence := conf }]
      t).1.active_violations =
      (check_violations cfg camera_id
        (generate_person_id [x1, y1, x2, y2] camera_id) sid
        (trackerFor cfg camera_id [] t s.people
          { cls := "person", bbox := [x1, y1, x2, y2], confidence := conf })
        fr t s.required_ppe
        (⟨s.violation_start_times, s.active_violations, s.violation_cooldowns⟩,
         [])).1.active ∧
    (process_detections cfg s camera_id fr
      [{ cls := "person", bbox := [x1, y1, x2, y2], confidence := conf }]
      t).1.violation_cooldowns =
      (check_violations cfg camera_id
        (generate_person_id [x1, y1, x2, y2] camera_id) sid
        (trackerFor cfg camera_id [] t s.people
          { cls := "person", bbox := [x1, y1, x2, y2], confidence := conf })
        fr t s.required_ppe
        (⟨s.violation_start_times, s.active_violations, s.violation_cooldowns⟩,
         [])).1.cooldowns ∧
    (process_detections cfg s camera_id fr
      [{ cls := "person", bbox := [x1, y1, x2, y2], confidence := conf }]
      t).1.active_session_id = some sid ∧
    (process_detections cfg s camera_id fr
      [{ cls := "person", bbox := [x1, y1, x2, y2], confidence := conf }]
      t).1.required_ppe = s.required_ppe ∧
    (process_detections cfg s camera_id fr
      [{ cls := "person", bbox := [x1, y1, x2, y2], confidence := conf }] t).2 =
      (check_violations cfg camera_id
        (generate_person_id [x1, y1, x2, y2] camera_id) sid
        (trackerFor cfg camera_id [] t s.people
          { cls := "person", bbox := [x1, y1, x2, y2], confidence := conf })
        fr t s.required_ppe
        (⟨s.violation_start_times, s.active_violations, s.violation_cooldowns⟩, [])).2 := by
  rw [process_detections_some cfg s camera_id fr
    [{ cls := "person", bbox := [x1, y1, x2, y2], confidence := conf }] t sid hsid]
  simp only [List.filter_cons, List.filter_nil, toLower_person_eq, person_not_ppe,
    beq_self_eq_true, if_pos, Bool.false_eq_true, if_false, List.foldl_cons,
    List.foldl_nil]
  rw [updateOnePerson_valid cfg camera_id [] t (s.people, [])
    { cls := "person", bbox := [x1, y1, x2, y2], confidence := conf } rfl]
  simp only [List.foldl_cons, List.foldl_nil, alInsert]
  refine ⟨?_, ?_, ?_, ?_, ?_, ?_⟩ <;> trivial

/-- Run-level lemma (Active phase): once the key is Active (with persisting
non-compliance), no further alert for it is emitted on any later frame. -/
theorem run_frames_active (cfg : Config) (camera_id sid k : String) (fr : Frame)
    (x1 y1 x2 y2 conf : ℚ) (l1 l2 : List (String × Bool))
    (hl1 : ∀ p ∈ l1, p.1 ≠ k) (hl2 : ∀ p ∈ l2, p.1 ≠ k) :
    ∀ (ts : List ℚ) (s : EngineState) (t0 : ℚ) (vd0 : VioData),
    s.active_session_id = some sid →
    s.required_ppe = l1 ++ (k, true) :: l2 →
    alLookup (violation_key camera_id
      (generate_person_id [x1, y1, x2, y2] camera_id) k) s.violation_start_times
      = some t0 →
    alLookup (violation_key camera_id
      (generate_person_id [x1, y1, x2, y2] camera_id) k) s.active_violations
      = some vd0 →
    alertsFor camera_id (generate_person_id [x1, y1, x2, y2] camera_id) k
      (run_frames cfg camera_id fr
        [{ cls := "person", bbox := [x1, y1, x2, y2], confidence := conf }] s ts).2
      = [] := by
  intro ts
  induction ts with
  | nil =>
    intro s t0 vd0 _ _ _ _
    simp [run_frames, alertsFor]
  | cons t ts ih =>
    intro s t0 vd0 hsid hrp hst hav
    have P := process_single_person cfg s camera_id sid fr x1 y1 x2 y2 conf t hsid
    rw [hrp] at P
    have hppe : (trackerFor cfg camera_id [] t s.people
        { cls := "person", bbox := [x1, y1, x2, y2], confidence := conf }).has_ppe k
        = false :=
      has_ppe_of_ppe_nil (trackerFor_no_ppe cfg camera_id t s.people _) k
    have hA := check_violations_active cfg camera_id
      (generate_person_id [x1, y1, x2, y2] camera_id) sid k
      (trackerFor cfg camera_id [] t s.people
        { cls := "person", bbox := [x1, y1, x2, y2], confidence := conf })
      fr t t0 vd0 l1 l2
      ⟨s.violation_start_times, s.active_violations, s.violation_cooldowns⟩ []
      hl1 hl2 hppe hst hav
    simp only [run_frames]
    rw [alertsFor_append, P.2.2.2.2.2, hA.2.2]
    rw [ih _ t0 vd0 P.2.2.2.1 P.2.2.2.2.1
      (by rw [P.1]; exact hA.1) (by rw [P.2.1]; exact hA.2.1)]
    simp [alertsFor]

/-- Run-level lemma (Pending phase): from a pending key (start time `t0`, no
active entry, no cooldown), the run emits exactly one alert for the key if
some frame time reaches `t0 + debounce`, none otherwise, and any emitted
alert is stamped at or after the threshold. -/
theorem run_frames_pending (cfg : Config) (camera_id sid k : String) (fr : Frame)
    (x1 y1 x2 y2 conf : ℚ) (l1 l2 : List (String × Bool))
    (hl1 : ∀ p ∈ l1, p.1 ≠ k) (hl2 : ∀ p ∈ l2, p.1 ≠ k) :
    ∀ (ts : List ℚ) (s : EngineState) (t0 : ℚ),
    s.active_session_id = some sid →
    s.required_ppe = l1 ++ (k, true) :: l2 →
    alLookup (violation_key camera_id
      (generate_person_id [x1, y1, x2, y2] camera_id) k) s.violation_start_times
      = some t0 →
    alLookup (violation_key camera_id
      (generate_person_id [x1, y1, x2, y2] camera_id) k) s.active_violations = none →
    alLookup (violation_key camera_id
      (generate_person_id [x1, y1, x2, y2] camera_id) k) s.violation_cooldowns = none →
    (∀ a ∈ alertsFor camera_id (generate_person_id [x1, y1, x2, y2] camera_id) k
        (run_frames cfg camera_id fr
          [{ cls := "person", bbox := [x1, y1, x2, y2], confidence := conf }] s ts).2,
      t0 + cfg.violation_debounce_seconds ≤ a.timestamp) ∧
    (alertsFor camera_id (generate_person_id [x1, y1, x2, y2] camera_id) k
        (run_frames cfg camera_id fr
          [{ cls := "person", bbox := [x1, y1, x2, y2], confidence := conf }] s ts).2).length
      = if ts.any (fun tt => decide (t0 + cfg.violation_debounce_seconds ≤ tt))
        then 1 else 0 := by
  intro ts
  induction ts with
  | nil =>
    intro s t0 _ _ _ _ _
    simp [run_frames, alertsFor]
  | cons t ts ih =>
    intro s t0 hsid hrp hst hav hcd
    have P := process_single_person cfg s camera_id sid fr x1 y1 x2 y2 conf t hsid
    rw [hrp] at P
    have hppe : (trackerFor cfg camera_id [] t s.people
        { cls := "person", bbox := [x1, y1, x2, y2], confidence := conf }).has_ppe k
        = false :=
      has_ppe_of_ppe_nil (trackerFor_no_ppe cfg camera_id t s.people _) k
    by_cases hfire : cfg.violation_debounce_seconds ≤ t - t0
    · have hA := check_violations_pending_fire cfg camera_id
        (generate_person_id [x1, y1, x2, y2] camera_id) sid k
        (trackerFor cfg camera_id [] t s.people
          { cls := "person", bbox := [x1, y1, x2, y2], confidence := conf })
        fr t t0 l1 l2
        ⟨s.violation_start_times, s.active_violations, s.violation_cooldowns⟩ []
        hl1 hl2 hppe hcd hst hav hfire
      have hrest := run_frames_active cfg camera_id sid k fr x1 y1 x2 y2 conf l1 l2
        hl1 hl2 ts _ t0 _ P.2.2.2.1 P.2.2.2.2.1
        (by rw [P.1]; exact hA.1) (by rw [P.2.1]; exact hA.2.1)
      simp only [run_frames]
      rw [alertsFor_append, P.2.2.2.2.2, hA.2.2, hrest]
      constructor
      · intro a ha
        simp only [alertsFor, List.filter_nil, List.append_nil, List.nil_append] at ha
        rcases List.mem_singleton.mp ha with rfl
        show t0 + cfg.violation_debounce_seconds ≤ t
        linarith
      · have hhead : decide (t0 + cfg.violation_debounce_seconds ≤ t) = true := by
          simp only [decide_eq_true_eq]
          linarith
        simp [alertsFor, List.any_cons, hhead]
    · have hA := check_violations_pending_nofire cfg camera_id
        (generate_person_id [x1, y1, x2, y2] camera_id) sid k
        (trackerFor cfg camera_id [] t s.people
          { cls := "person", bbox := [x1, y1, x2, y2], confidence := conf })
        fr t t0 l1 l2
        ⟨s.violation_start_times, s.active_violations, s.violation_cooldowns⟩ []
        hl1 hl2 hppe hcd hst hav hfire
      have hrest := ih _ t0 P.2.2.2.1 P.2.2.2.2.1
        (by rw [P.1]; exact hA.1) (by rw [P.2.1]; exact hA.2.1)
        (by rw [P.2.2.1]; exact hA.2.2.1)
      simp only [run_frames]
      rw [alertsFor_append, P.2.2.2.2.2, hA.2.2.2]
      constructor
      · intro a ha
        rcases List.mem_append.mp ha with ha | ha
        · simp [alertsFor] at ha
        · exact hrest.1 a ha
      · have hhead : decide (t0 + cfg.violation_debounce_seconds ≤ t) = false := by
          simp only [decide_eq_false_iff_not]
          intro hcontra
          exact hfire (by linarith)
        simp only [alertsFor, List.filter_nil, List.nil_append, List.any_cons, hhead,
          Bool.false_or]
        exact hrest.2

/-- Claim C3: for a tracked person continuously missing a required PPE kind
whose violation key has no prior state, a run of frames (first frame at
`t0`) emits no alert for that key stamped strictly before
`t0 + violation_debounce_seconds`, and emits exactly one alert for it
precisely when some frame time reaches that threshold. -/
theorem c3_debounce_single_alert (cfg : Config) (s : EngineState)
    (camera_id sid k : String) (fr : Frame) (x1 y1 x2 y2 conf : ℚ)
    (l1 l2 : List (String × Bool)) (t0 : ℚ) (ts : List ℚ)
    (hl1 : ∀ p ∈ l1, p.1 ≠ k) (hl2 : ∀ p ∈ l2, p.1 ≠ k)
    (hsid : s.active_session_id = some sid)
    (hrp : s.required_ppe = l1 ++ (k, true) :: l2)
    (hst : alLookup (violation_key camera_id
      (generate_person_id [x1, y1, x2, y2] camera_id) k) s.violation_start_times = none)
    (hav : alLookup (violation_key camera_id
      (generate_person_id [x1, y1, x2, y2] camera_id) k) s.active_violations = none)
    (hcd : alLookup (violation_key camera_id
      (generate_person_id [x1, y1, x2, y2] camera_id) k) s.violation_cooldowns = none) :
    (∀ a ∈ alertsFor camera_id (generate_person_id [x1, y1, x2, y2] camera_id) k
        (run_frames cfg camera_id fr
          [{ cls := "person", bbox := [x1, y1, x2, y2], confidence := conf }] s
          (t0 :: ts)).2,
      t0 + cfg.violation_debounce_seconds ≤ a.timestamp) ∧
    (alertsFor camera_id (generate_person_id [x1, y1, x2, y2] camera_id) k
        (run_frames cfg camera_id fr
          [{ cls := "person", bbox := [x1, y1, x2, y2], confidence := conf }] s
          (t0 :: ts)).2).length
      = if (t0 :: ts).any (fun tt => decide (t0 + cfg.violation_debounce_seconds ≤ tt))
        then 1 else 0 := by
  have P := process_single_person cfg s camera_id sid fr x1 y1 x2 y2 conf t0 hsid
  rw [hrp] at P
  have hppe : (trackerFor cfg camera_id [] t0 s.people
      { cls := "person", bbox := [x1, y1, x2, y2], confidence := conf }).has_ppe k
      = false :=
    has_ppe_of_ppe_nil (trackerFor_no_ppe cfg camera_id t0 s.people _) k
  by_cases hz : cfg.violation_debounce_seconds ≤ 0
  · have hA := check_violations_fresh_fire cfg camera_id
      (generate_person_id [x1, y1, x2, y2] camera_id) sid k
      (trackerFor cfg camera_id [] t0 s.people
        { cls := "person", bbox := [x1, y1, x2, y2], confidence := conf })
      fr t0 l1 l2
      ⟨s.violation_start_times, s.active_violations, s.violation_cooldowns⟩ []
      hl1 hl2 hppe hcd hst hav hz
    have hrest := run_frames_active cfg camera_id sid k fr x1 y1 x2 y2 conf l1 l2
      hl1 hl2 ts _ t0 _ P.2.2.2.1 P.2.2.2.2.1
      (by rw [P.1]; exact hA.1) (by rw [P.2.1]; exact hA.2.1)
    simp only [run_frames]
    rw [alertsFor_append, P.2.2.2.2.2, hA.2.2, hrest]
    constructor
    · intro a ha
      simp only [alertsFor, List.filter_nil, List.append_nil, List.nil_append] at ha
      rcases List.mem_singleton.mp ha with rfl
      show t0 + cfg.violation_debounce_seconds ≤ t0
      linarith
    · have hany : ((t0 :: ts).any
          (fun tt => decide (t0 + cfg.violation_debounce_seconds ≤ tt))) = true := by
        have hhead : decide (t0 + cfg.violation_debounce_seconds ≤ t0) = true := by
          simp only [decide_eq_true_eq]
          linarith
        simp only [List.any_cons, hhead, Bool.true_or]
      rw [hany]
      simp [alertsFor]
  · have hA := check_violations_fresh_nofire cfg camera_id
      (generate_person_id [x1, y1, x2, y2] camera_id) sid k
      (trackerFor cfg camera_id [] t0 s.people
        { cls := "person", bbox := [x1, y1, x2, y2], confidence := conf })
      fr t0 l1 l2
      ⟨s.violation_start_times, s.active_violations, s.violation_cooldowns⟩ []
      hl1 hl2 hppe hcd hst hav hz
    have hrest := run_frames_pending cfg camera_id sid k fr x1 y1 x2 y2 conf l1 l2
      hl1 hl2 ts _ t0 P.2.2.2.1 P.2.2.2.2.1
      (by rw [P.1]; exact hA.1) (by rw [P.2.1]; exact hA.2.1)
      (by rw [P.2.2.1]; exact hA.2.2.1)
    simp only [run_frames]
    rw [alertsFor_append, P.2.2.2.2.2, hA.2.2.2]
    constructor
    · intro a ha
      rcases List.mem_append.mp ha with ha | ha
      · simp [alertsFor] at ha
      · exact hrest.1 a ha
    · have hhead : decide (t0 + cfg.violation_debounce_seconds ≤ t0) = false := by
        simp only [decide_eq_false_iff_not]
        intro hcontra
        exact hz (by linarith)
      simp only [alertsFor, List.filter_nil, List.nil_append, List.any_cons, hhead,
        Bool.false_or]
      exact hrest.2

/-- Witness for C3: goggles required, person missing goggles at t = 0 and
t = 2.1 with debounce 2: exactly one alert, stamped at or after the
threshold. -/
theorem c3_witness :
    (∀ a ∈ alertsFor "cam1" (generate_person_id [100, 100, 200, 300] "cam1") "goggles"
        (run_frames cfgDefault "cam1" ⟨480, 640⟩
          [{ cls := "person", bbox := [100, 100, 200, 300], confidence := 9/10 }]
          sGoggles ((0 : ℚ) :: [21/10])).2,
      (0 : ℚ) + cfgDefault.violation_debounce_seconds ≤ a.timestamp) ∧
    (alertsFor "cam1" (generate_person_id [100, 100, 200, 300] "cam1") "goggles"
        (run_frames cfgDefault "cam1" ⟨480, 640⟩
          [{ cls := "person", bbox := [100, 100, 200, 300], confidence := 9/10 }]
          sGoggles ((0 : ℚ) :: [21/10])).2).length
      = if ((0 : ℚ) :: [21/10]).any
          (fun tt => decide ((0 : ℚ) + cfgDefault.violation_debounce_seconds ≤ tt))
        then 1 else 0 :=
  c3_debounce_single_alert cfgDefault sGoggles "cam1" "sess" "goggles" ⟨480, 640⟩
    100 100 200 300 (9/10) []
    [("lab_coat", false), ("gloves", false), ("helmet", false)] 0 [21/10]
    (by intro p hp; simp at hp)
    (by
      intro p hp
      simp only [List.mem_cons, List.not_mem_nil, or_false] at hp
      rcases hp with rfl | rfl | rfl <;> decide)
    rfl rfl rfl rfl rfl

/-- A tracked person currently wearing goggles (one matched detection). -/
def trGoggles : PersonTracker :=
  { person_id := "p1", bbox := [0, 0, 50, 100],
    ppe := [("goggles", [{ cls := "goggles", bbox := [0, 0, 20, 20], confidence := 1 }])],
    last_seen := 0 }

/-- Witness for C5: goggles required, pending since t0 = 0, person has the
goggles at now = 1 (< debounce 2): pending clears, no alert. -/
theorem c5_witness :
    alLookup "cam1_p1_goggles"
      (check_violations cfgDefault "cam1" "p1" "sess" trGoggles ⟨480, 640⟩ 1
        ([] ++ ("goggles", true) :: [("lab_coat", false)])
        (⟨[("cam1_p1_goggles", 0)], [], []⟩, [])).1.start_times = none ∧
    alLookup "cam1_p1_goggles"
      (check_violations cfgDefault "cam1" "p1" "sess" trGoggles ⟨480, 640⟩ 1
        ([] ++ ("goggles", true) :: [("lab_coat", false)])
        (⟨[("cam1_p1_goggles", 0)], [], []⟩, [])).1.active = none ∧
    alertsFor "cam1" "p1" "goggles"
      (check_violations cfgDefault "cam1" "p1" "sess" trGoggles ⟨480, 640⟩ 1
        ([] ++ ("goggles", true) :: [("lab_coat", false)])
        (⟨[("cam1_p1_goggles", 0)], [], []⟩, [])).2 = alertsFor "cam1" "p1" "goggles" [] := by
  have h := c5_compliance_clears_pending cfgDefault "cam1" "p1" "sess" "goggles"
    trGoggles ⟨480, 640⟩ 1 0 [] [("lab_coat", false)]
    ⟨[("cam1_p1_goggles", 0)], [], []⟩ []
    (by intro p hp; simp at hp)
    (by intro p hp; rcases List.mem_singleton.mp hp with rfl; decide)
    (by with_unfolding_all rfl)
    rfl
    (by with_unfolding_all rfl)
    rfl
    (by show (1 : ℚ) - 0 < cfgDefault.violation_debounce_seconds; norm_num [cfgDefault])
    (by simp)
    (by simp)
  exact h

/-- Non-overlap of two boxes `[x1, y1, x2, y2]`: the interiors share no
point. -/
def boxesDisjoint (x1a y1a x2a y2a x1b y1b x2b y2b : ℚ) : Prop :=
  min x2a x2b ≤ max x1a x1b ∨ min y2a y2b ≤ max y1a y1b

/-- Claim C7: for non-degenerate boxes, `_calculate_iou` is symmetric,
returns 0 for non-overlapping boxes and 1 for identical boxes. -/
theorem c7_iou_properties :
    (∀ x1a y1a x2a y2a x1b y1b x2b y2b : ℚ,
      x1a < x2a → y1a < y2a → x1b < x2b → y1b < y2b →
      calculate_iou [x1a, y1a, x2a, y2a] [x1b, y1b, x2b, y2b] =
        calculate_iou [x1b, y1b, x2b, y2b] [x1a, y1a, x2a, y2a]) ∧
    (∀ x1a y1a x2a y2a x1b y1b x2b y2b : ℚ,
      x1a < x2a → y1a < y2a → x1b < x2b → y1b < y2b →
      boxesDisjoint x1a y1a x2a y2a x1b y1b x2b y2b →
      calculate_iou [x1a, y1a, x2a, y2a] [x1b, y1b, x2b, y2b] = 0) ∧
    (∀ x1 y1 x2 y2 : ℚ, x1 < x2 → y1 < y2 →
      calculate_iou [x1, y1, x2, y2] [x1, y1, x2, y2] = 1) := by
  refine ⟨?_, ?_, ?_⟩
  · intro x1a y1a x2a y2a x1b y1b x2b y2b _ _ _ _
    simp only [calculate_iou]
    rw [max_comm x1b x1a, max_comm y1b y1a, min_comm x2b x2a, min_comm y2b y2a,
      add_comm ((x2b - x1b) * (y2b - y1b)) ((x2a - x1a) * (y2a - y1a))]
  · intro x1a y1a x2a y2a x1b y1b x2b y2b _ _ _ _ hdisj
    simp only [boxesDisjoint] at hdisj
    simp only [calculate_iou]
    rw [if_pos hdisj]
  · intro x1 y1 x2 y2 h1 h2
    have hA : (0 : ℚ) < (x2 - x1) * (y2 - y1) :=
      mul_pos (by linarith) (by linarith)
    simp only [calculate_iou, max_self, min_self]
    rw [if_neg (by push_neg; exact ⟨by linarith, by linarith⟩)]
    rw [show (x2 - x1) * (y2 - y1) + (x2 - x1) * (y2 - y1) - (x2 - x1) * (y2 - y1)
        = (x2 - x1) * (y2 - y1) by ring]
    rw [if_neg (ne_of_gt hA)]
    exact div_self (ne_of_gt hA)

/-- Witness for C7 at concrete boxes. -/
theorem c7_witness :
    calculate_iou [0, 0, 2, 2] [1, 1, 3, 3] = calculate_iou [1, 1, 3, 3] [0, 0, 2, 2] ∧
    calculate_iou [0, 0, 1, 1] [2, 2, 3, 3] = 0 ∧
    calculate_iou [0, 0, 2, 2] [0, 0, 2, 2] = 1 := by
  refine ⟨c7_iou_properties.1 0 0 2 2 1 1 3 3 (by norm_num) (by norm_num) (by norm_num)
    (by norm_num), ?_, ?_⟩
  · refine c7_iou_properties.2.1 0 0 1 1 2 2 3 3 (by norm_num) (by norm_num) (by norm_num)
      (by norm_num) (Or.inl ?_)
    rw [show min (1 : ℚ) 3 = 1 by simp, show max (0 : ℚ) 2 = 2 by simp]
    norm_num
  · exact c7_iou_properties.2.2 0 0 2 2 (by norm_num) (by norm_num)

end PPE
